import Mathlib

/-!
# AI-Learning-Journey: prompt-engineering scripts

A shallow embedding of the five scripts of the repository

* `initial_llm_call_anthropic.js`, `initial_llm_call_openai.js`, `estimator.js`,
* `prompt_engineering_examples.js` (Anthropic),
* `prompt_engineering_examples_openai.js` (OpenAI),

as programs over an explicit trace of observable events (lines written to
standard output and standard error, outbound chat-completion calls, pauses and
texts handed to `JSON.parse`).  The remote provider and the JavaScript runtime
functions (`JSON.parse`, `JSON.stringify`, the console formatting of an error
object) are parameters of every program.
-/

namespace PromptScripts

/-! ## Data model -/

/-- Speaker role of a turn (`role: 'system' | 'user' | 'assistant'`). -/
inductive Role where
  | system
  | user
  | assistant
deriving DecidableEq, Repr

/-- One turn of a chat request: `{ role, content }`. -/
structure Turn where
  role : Role
  content : String
deriving DecidableEq, Repr

/-- JSON-schema literal, restricted to the keywords used by `riskAssessmentSchema`. -/
inductive Schema where
  | string (enum : Option (List String)) (description : Option String)
  | number (minimum : Option Int) (maximum : Option Int)
  | array (items : Schema)
  | object (properties : List (String × Schema)) (required : List String)
      (additionalProperties : Bool)
deriving Repr

/-- The `response_format` directive of an OpenAI request. -/
inductive ResponseFormat where
  | json_object
  | json_schema (name : String) (strict : Bool) (schema : Schema)
deriving Repr

/-- Payload of one chat-completion call.  `system` is the separate role-instruction
field of the Anthropic API (OpenAI requests carry the role instruction as a turn). -/
structure ChatRequest where
  model : String
  max_tokens : Nat
  system : Option String
  messages : List Turn
  response_format : Option ResponseFormat
deriving Repr

/-- A thrown JavaScript error: `error.message` and `error.status` (absent on errors that
do not come from an HTTP response). -/
structure JsError where
  message : String
  status : Option Nat
deriving DecidableEq, Repr

/-- A value produced by `JSON.parse`.  A number is kept as a decimal `mantissa * 10 ^ exponent`. -/
inductive Json where
  | null
  | bool (b : Bool)
  | num (mantissa : Int) (exponent : Int)
  | str (s : String)
  | arr (items : List Json)
  | obj (members : List (String × Json))
deriving Repr

/-- Observable events of a run, in the order they happen. -/
inductive Event where
  | log (line : String)
  | error (line : String)
  | call (req : ChatRequest)
  | pause (ms : Nat)
  | parse (text : String)
deriving Repr

/-- The remote provider: the reply text of a call, or the error it is rejected with, given the
number of calls already made in this run and the request.  The reply text is what the scripts
read from a response: `response.content[0].text` (Anthropic) or
`response.choices[0].message.content` (OpenAI), taken to be a string. -/
abbrev Remote := Nat → ChatRequest → Except JsError String

/-- The JavaScript runtime functions the scripts use. -/
structure Runtime where
  /-- `JSON.parse(text)`: the value, or the thrown `SyntaxError`. -/
  parse : String → Except JsError Json
  /-- `JSON.stringify(value, null, indent)`. -/
  stringify : Json → Nat → String
  /-- How `console.error` renders an error object. -/
  inspect : JsError → String

/-! ## Programs over a trace -/

/-- Result of running a program: the returned value or the thrown error, and the trace. -/
structure Outcome (α : Type) where
  result : Except JsError α
  trace : List Event

/-- A program takes the trace so far and returns an outcome that extends it. -/
def Prog (α : Type) : Type := List Event → Outcome α

namespace Prog

/-- Return a value without any event. -/
def pure {α : Type} (a : α) : Prog α := fun tr => ⟨.ok a, tr⟩

/-- Sequencing: a thrown error skips the continuation and keeps the trace. -/
def bind {α β : Type} (p : Prog α) (f : α → Prog β) : Prog β := fun tr =>
  match p tr with
  | ⟨.ok a, tr1⟩ => f a tr1
  | ⟨.error e, tr1⟩ => ⟨.error e, tr1⟩

/-- The block `try { body } catch (error) { handler }`. -/
def tryCatch {α : Type} (body : Prog α) (handler : JsError → Prog α) : Prog α := fun tr =>
  match body tr with
  | ⟨.ok a, tr1⟩ => ⟨.ok a, tr1⟩
  | ⟨.error e, tr1⟩ => handler e tr1

end Prog

instance : Monad Prog where
  pure := Prog.pure
  bind := Prog.bind

/-- Is the event an outbound call. -/
def Event.isCall : Event → Bool
  | .call _ => true
  | _ => false

/-- Number of outbound calls in a trace. -/
def callCount (tr : List Event) : Nat := (tr.filter Event.isCall).length

/-- The requests sent in a trace, in order. -/
def requests : List Event → List ChatRequest
  | [] => []
  | .call r :: es => r :: requests es
  | _ :: es => requests es

/-- Lines written to standard output, in order. -/
def stdout : List Event → List String
  | [] => []
  | .log s :: es => s :: stdout es
  | _ :: es => stdout es

/-- Lines written to standard error, in order. -/
def stderr : List Event → List String
  | [] => []
  | .error s :: es => s :: stderr es
  | _ :: es => stderr es

/-- Texts handed to `JSON.parse`, in order. -/
def parsed : List Event → List String
  | [] => []
  | .parse s :: es => s :: parsed es
  | _ :: es => parsed es

/-- Pauses taken, in order (milliseconds). -/
def pauses : List Event → List Nat
  | [] => []
  | .pause n :: es => n :: pauses es
  | _ :: es => pauses es

/-- `console.log(line)`. -/
def consoleLog (line : String) : Prog Unit := fun tr => ⟨.ok (), tr ++ [Event.log line]⟩

/-- `console.error(line)`. -/
def consoleError (line : String) : Prog Unit := fun tr => ⟨.ok (), tr ++ [Event.error line]⟩

/-- `await client.create(req)`: one outbound call, returning the reply text or throwing. -/
def create (api : Remote) (req : ChatRequest) : Prog String := fun tr =>
  ⟨api (callCount tr) req, tr ++ [Event.call req]⟩

/-- `await new Promise(resolve => setTimeout(resolve, ms))`. -/
def sleep (ms : Nat) : Prog Unit := fun tr => ⟨.ok (), tr ++ [Event.pause ms]⟩

/-- `JSON.parse(text)`. -/
def jsonParse (rt : Runtime) (text : String) : Prog Json := fun tr =>
  ⟨rt.parse text, tr ++ [Event.parse text]⟩

/-- `s.repeat(n)`. -/
def strRepeat (s : String) : Nat → String
  | 0 => ""
  | n + 1 => s ++ strRepeat s n

/-! ## `prompt_engineering_examples.js` (Anthropic) -/

namespace Anthropic

/-- The request built by `example1_rolePrompting`. -/
def example1_request : ChatRequest :=
  { model := "claude-sonnet-4-20250514"
    max_tokens := 1024
    system := some "You are a seasoned construction cost estimator with 20 years of experience in Honduras."
    messages :=
      [ { role := .user
          content := "What is the average cost per square meter for building a concrete foundation in Honduras?" } ]
    response_format := none }

/-- The function `example1_rolePrompting`. -/
def example1_rolePrompting (api : Remote) : Prog Unit := do
  consoleLog ("\n" ++ strRepeat "=" 80)
  consoleLog "EXAMPLE 1: ROLE PROMPTING ONLY"
  consoleLog (strRepeat "=" 80)
  consoleLog "Using system prompt to define the AI's role\n"
  let response ← create api example1_request
  consoleLog "Response:"
  consoleLog response

/-- The request built by `example2_prefill`. -/
def example2_request : ChatRequest :=
  { model := "claude-sonnet-4-20250514"
    max_tokens := 1024
    system := none
    messages :=
      [ { role := .user
          content := "What is your opinion on using rebar vs fiber reinforcement in concrete slabs?" },
        { role := .assistant
          content := "Based on structural engineering principles, I recommend" } ]
    response_format := none }

/-- The function `example2_prefill`. -/
def example2_prefill (api : Remote) : Prog Unit := do
  consoleLog ("\n" ++ strRepeat "=" 80)
  consoleLog "EXAMPLE 2: PREFILL ONLY"
  consoleLog (strRepeat "=" 80)
  consoleLog "Using assistant prefill to guide the response direction\n"
  let response ← create api example2_request
  consoleLog "Prefill used: \"Based on structural engineering principles, I recommend\""
  consoleLog "\nResponse (continues from prefill):"
  consoleLog ("Based on structural engineering principles, I recommend" ++ response)

/-- The request built by `example3_roleAndPrefill`. -/
def example3_request : ChatRequest :=
  { model := "claude-sonnet-4-20250514"
    max_tokens := 1024
    system := some "You are a safety inspector with expertise in construction site regulations in Central America."
    messages :=
      [ { role := .user
          content := "Inspect this construction site scenario: Workers are mixing concrete without proper PPE, scaffolding has no guardrails, and electrical cables are exposed near water." },
        { role := .assistant
          content := "SAFETY VIOLATION REPORT\n\nCritical Issues Identified:" } ]
    response_format := none }

/-- The function `example3_roleAndPrefill`. -/
def example3_roleAndPrefill (api : Remote) : Prog Unit := do
  consoleLog ("\n" ++ strRepeat "=" 80)
  consoleLog "EXAMPLE 3: ROLE + PREFILL COMBINED"
  consoleLog (strRepeat "=" 80)
  consoleLog "Combining system prompt (role) with assistant prefill\n"
  let response ← create api example3_request
  consoleLog "System Role: Safety inspector with Central America expertise"
  consoleLog "Prefill: \"SAFETY VIOLATION REPORT\\n\\nCritical Issues Identified:\""
  consoleLog "\nResponse:"
  consoleLog ("SAFETY VIOLATION REPORT\n\nCritical Issues Identified:" ++ response)

/-- The template literal `SYSTEM_PROMPT` of `example4_allTogether`. -/
def SYSTEM_PROMPT : String :=
  "You are an expert civil engineer specializing in risk assessment for construction projects in Honduras.\n" ++
  "\n" ++
  "IMPORTANT: You must respond ONLY with valid JSON in this exact format:\n" ++
  "\x7b\n" ++
  "  \"projectName\": \"string\",\n" ++
  "  \"riskLevel\": \"low\" | \"medium\" | \"high\" | \"critical\",\n" ++
  "  \"risks\": [\n" ++
  "    \x7b\n" ++
  "      \"category\": \"string\",\n" ++
  "      \"description\": \"string\",\n" ++
  "      \"severity\": 1-10,\n" ++
  "      \"mitigation\": \"string\"\n" ++
  "    \x7d\n" ++
  "  ],\n" ++
  "  \"estimatedDelay\": \"string\",\n" ++
  "  \"budgetImpact\": \"string\",\n" ++
  "  \"recommendations\": [\"string\"]\n" ++
  "\x7d\n" ++
  "\n" ++
  "Do not include any text outside the JSON structure."

/-- The request built by `example4_allTogether`. -/
def example4_request : ChatRequest :=
  { model := "claude-sonnet-4-20250514"
    max_tokens := 2048
    system := some SYSTEM_PROMPT
    messages :=
      [ { role := .user
          content := "Assess the risks for this project: Building a 3-story apartment complex in Tegucigalpa during rainy season. Budget: $500K. Timeline: 8 months. Soil tests show high clay content." },
        { role := .assistant
          content := "\x7b" } ]
    response_format := none }

/-- The function `example4_allTogether`. -/
def example4_allTogether (api : Remote) (rt : Runtime) : Prog Unit := do
  consoleLog ("\n" ++ strRepeat "=" 80)
  consoleLog "EXAMPLE 4: ROLE + PREFILL + JSON OUTPUT"
  consoleLog (strRepeat "=" 80)
  consoleLog "Combining all three techniques for structured JSON response\n"
  let response ← create api example4_request
  consoleLog "System Role: Civil engineer + JSON format requirements"
  consoleLog "Prefill: \"\x7b\""
  consoleLog "\nJSON Response:"
  let jsonResponse := "\x7b" ++ response
  Prog.tryCatch
    (do
      let parsed ← jsonParse rt jsonResponse
      consoleLog (rt.stringify parsed 2))
    (fun _ => do
      consoleLog "Raw response (failed to parse JSON):"
      consoleLog jsonResponse)

/-- The function `runAllExamples`; the script consists of the one call `runAllExamples()`. -/
def runAllExamples (api : Remote) (rt : Runtime) : Prog Unit := do
  consoleLog "\n🎓 PROMPT ENGINEERING EXAMPLES"
  consoleLog "Learning: Role Prompting + Prefill + JSON Output\n"
  Prog.tryCatch
    (do
      example1_rolePrompting api
      sleep 1000
      example2_prefill api
      sleep 1000
      example3_roleAndPrefill api
      sleep 1000
      example4_allTogether api rt
      consoleLog ("\n" ++ strRepeat "=" 80)
      consoleLog "✅ ALL EXAMPLES COMPLETED"
      consoleLog (strRepeat "=" 80)
      consoleLog "\nKey Takeaways:"
      consoleLog "1. System prompt = Define the AI's role and expertise"
      consoleLog "2. Prefill = Start the response to guide format/tone"
      consoleLog "3. Combine both = Maximum control over output"
      consoleLog "4. JSON prefill with \"\x7b\" = Reliable structured output"
      consoleLog "\n")
    (fun error => do
      consoleError ("Error running examples: " ++ error.message)
      if error.status = some 400 then
        consoleError "\n⚠️  Check your Anthropic API credits at: https://console.anthropic.com/settings/billing")

end Anthropic

/-! ## `prompt_engineering_examples_openai.js` (OpenAI) -/

namespace OpenAI

/-- The request built by `example1_rolePrompting`. -/
def example1_request : ChatRequest :=
  { model := "gpt-4o-mini"
    max_tokens := 1024
    system := none
    messages :=
      [ { role := .system
          content := "You are a seasoned construction cost estimator with 20 years of experience in Honduras." },
        { role := .user
          content := "What is the average cost per square meter for building a concrete foundation in Honduras?" } ]
    response_format := none }

/-- The function `example1_rolePrompting`. -/
def example1_rolePrompting (api : Remote) : Prog Unit := do
  consoleLog ("\n" ++ strRepeat "=" 80)
  consoleLog "EXAMPLE 1: ROLE PROMPTING ONLY"
  consoleLog (strRepeat "=" 80)
  consoleLog "Using system message to define the AI's role\n"
  let response ← create api example1_request
  consoleLog "System Role: Construction cost estimator"
  consoleLog "\nResponse:"
  consoleLog response

/-- The request built by `example2_fewShotLearning`. -/
def example2_request : ChatRequest :=
  { model := "gpt-4o-mini"
    max_tokens := 1024
    system := none
    messages :=
      [ { role := .user
          content := "What material is best for roof framing?" },
        { role := .assistant
          content := "✓ RECOMMENDATION: Steel trusses\n✗ NOT RECOMMENDED: Wood beams\nREASON: Steel provides better durability in humid climates." },
        { role := .user
          content := "Should I use concrete blocks or bricks?" },
        { role := .assistant
          content := "✓ RECOMMENDATION: Concrete blocks\n✗ NOT RECOMMENDED: Clay bricks\nREASON: Concrete blocks are more cost-effective and faster to install." },
        { role := .user
          content := "What is your opinion on using rebar vs fiber reinforcement in concrete slabs?" } ]
    response_format := none }

/-- The function `example2_fewShotLearning`. -/
def example2_fewShotLearning (api : Remote) : Prog Unit := do
  consoleLog ("\n" ++ strRepeat "=" 80)
  consoleLog "EXAMPLE 2: FEW-SHOT LEARNING"
  consoleLog (strRepeat "=" 80)
  consoleLog "Teaching the AI a specific format through examples\n"
  consoleLog "⚠️  Note: OpenAI does NOT support prefilling like Anthropic."
  consoleLog "Instead, use few-shot learning (example conversations)\n"
  let response ← create api example2_request
  consoleLog "Technique: Provided 2 example Q&A pairs to teach format"
  consoleLog "\nResponse (should follow the ✓/✗ format):"
  consoleLog response

/-- The request built by `example3_roleAndFewShot`. -/
def example3_request : ChatRequest :=
  { model := "gpt-4o-mini"
    max_tokens := 1024
    system := none
    messages :=
      [ { role := .system
          content := "You are a safety inspector with expertise in construction site regulations in Central America." },
        { role := .user
          content := "Inspect: Workers not wearing hard hats, ladder unstable." },
        { role := .assistant
          content :=
            "🚨 SAFETY VIOLATION REPORT\n" ++
            "\n" ++
            "Critical Issues:\n" ++
            "1. [HIGH] Missing PPE - Hard hats required\n" ++
            "2. [MEDIUM] Unstable ladder - Fall hazard\n" ++
            "\n" ++
            "Required Actions:\n" ++
            "- Stop work immediately\n" ++
            "- Provide PPE to all workers\n" ++
            "- Replace ladder before continuing" },
        { role := .user
          content := "Inspect: Workers not wearing gloves. Not wearing harness on height." },
        { role := .assistant
          content :=
            "\n" ++
            "Critical Issues:\n" ++
            "1. [HIGH] Missing PPE - Harness required while working at height\n" ++
            "2. [MEDIUM] Missing Gloves - Hand protection needed\n" ++
            "\n" ++
            "Required Actions:\n" ++
            "- Stop work immediately\n" ++
            "- Provide PPE to all workers\n" ++
            "- Enforce harness use at heights before continuing" },
        { role := .user
          content := "Inspect this construction site: Workers are mixing concrete without proper PPE, scaffolding has no guardrails, and electrical cables are exposed near water." } ]
    response_format := none }

/-- The function `example3_roleAndFewShot`. -/
def example3_roleAndFewShot (api : Remote) : Prog Unit := do
  consoleLog ("\n" ++ strRepeat "=" 80)
  consoleLog "EXAMPLE 3: ROLE + FEW-SHOT COMBINED"
  consoleLog (strRepeat "=" 80)
  consoleLog "Combining system role with example-based learning\n"
  let response ← create api example3_request
  consoleLog "System Role: Safety inspector"
  consoleLog "Few-shot: 1 example inspection report"
  consoleLog "\nResponse (should follow report format):"
  consoleLog response

/-- The request built by `example4_jsonObjectMode`. -/
def example4_request : ChatRequest :=
  { model := "gpt-4o-mini"
    max_tokens := 2048
    system := none
    messages :=
      [ { role := .system
          content := "You are an expert civil engineer. Provide a risk assessment in JSON format with these fields: projectName, riskLevel, risks (array), estimatedDelay, budgetImpact, recommendations (array)." },
        { role := .user
          content := "Assess the risks for this project: Building a 3-story apartment complex in Tegucigalpa during rainy season. Budget: $500K. Timeline: 8 months. Soil tests show high clay content." } ]
    response_format := some .json_object }

/-- The function `example4_jsonObjectMode`. -/
def example4_jsonObjectMode (api : Remote) (rt : Runtime) : Prog Unit := do
  consoleLog ("\n" ++ strRepeat "=" 80)
  consoleLog "EXAMPLE 4: JSON OBJECT MODE (Basic)"
  consoleLog (strRepeat "=" 80)
  consoleLog "Using response_format: \x7b type: \"json_object\" \x7d\n"
  let response ← create api example4_request
  consoleLog "Method: response_format: \x7b type: \"json_object\" \x7d"
  consoleLog "✅ Guarantees valid JSON"
  consoleLog "⚠️  Does NOT guarantee schema compliance\n"
  consoleLog "JSON Response:"
  Prog.tryCatch
    (do
      let parsed ← jsonParse rt response
      consoleLog (rt.stringify parsed 2))
    (fun _ => do
      consoleLog "Raw response (failed to parse JSON):"
      consoleLog response)

/-- The item type of the `risks` array of `riskAssessmentSchema`. -/
def riskItemSchema : Schema :=
  .object
    [ ("category", .string none none),
      ("description", .string none none),
      ("severity", .number (some 1) (some 10)),
      ("mitigation", .string none none) ]
    ["category", "description", "severity", "mitigation"]
    false

/-- The constant `riskAssessmentSchema` of `example5_structuredOutputs`. -/
def riskAssessmentSchema : Schema :=
  .object
    [ ("projectName", .string none (some "Name of the construction project")),
      ("riskLevel",
        .string (some ["low", "medium", "high", "critical"]) (some "Overall risk level assessment")),
      ("risks", .array riskItemSchema),
      ("estimatedDelay", .string none none),
      ("budgetImpact", .string none none),
      ("recommendations", .array (.string none none)) ]
    ["projectName", "riskLevel", "risks", "estimatedDelay", "budgetImpact", "recommendations"]
    false

/-- The request built by `example5_structuredOutputs`. -/
def example5_request : ChatRequest :=
  { model := "gpt-4o-mini"
    max_tokens := 2048
    system := none
    messages :=
      [ { role := .system
          content := "You are an expert civil engineer specializing in risk assessment for construction projects." },
        { role := .user
          content := "Assess the risks for this project: Building a 3-story apartment complex in Tegucigalpa during rainy season. Budget: $500K. Timeline: 8 months. Soil tests show high clay content." } ]
    response_format := some (.json_schema "risk_assessment" true riskAssessmentSchema) }

/-- The function `example5_structuredOutputs`. -/
def example5_structuredOutputs (api : Remote) (rt : Runtime) : Prog Unit := do
  consoleLog ("\n" ++ strRepeat "=" 80)
  consoleLog "EXAMPLE 5: STRUCTURED OUTPUTS WITH JSON SCHEMA (Best Practice)"
  consoleLog (strRepeat "=" 80)
  consoleLog "Using json_schema for guaranteed schema compliance\n"
  consoleLog "📖 Introduced August 2024"
  consoleLog "📚 Docs: https://platform.openai.com/docs/guides/structured-outputs\n"
  let response ← create api example5_request
  consoleLog "Method: json_schema with strict: true"
  consoleLog "✅ Guarantees valid JSON"
  consoleLog "✅ Guarantees exact schema compliance"
  consoleLog "✅ Type-safe responses\n"
  consoleLog "JSON Response:"
  Prog.tryCatch
    (do
      let parsed ← jsonParse rt response
      consoleLog (rt.stringify parsed 2))
    (fun _ => do
      consoleLog "Raw response (failed to parse JSON):"
      consoleLog response)

/-- The function `runAllExamples`; the script consists of the one call `runAllExamples()`.
The calls of examples 1, 2, 4 and 5 are commented out in the source. -/
def runAllExamples (api : Remote) (rt : Runtime) : Prog Unit := do
  consoleLog "\n🎓 PROMPT ENGINEERING EXAMPLES (OpenAI - Research Verified)"
  consoleLog "Learning: Role Prompting + Few-Shot Learning + JSON Output\n"
  Prog.tryCatch
    (do
      sleep 1000
      example3_roleAndFewShot api
      consoleLog ("\n" ++ strRepeat "=" 80)
      consoleLog "✅ ALL EXAMPLES COMPLETED"
      consoleLog (strRepeat "=" 80)
      consoleLog "\nKey Takeaways (OpenAI):"
      consoleLog "1. System message = Define AI role and expertise"
      consoleLog "2. Few-shot learning = Teach format through examples (NOT prefilling)"
      consoleLog "3. json_object mode = Valid JSON (basic)"
      consoleLog "4. json_schema mode = Exact schema compliance (recommended)"
      consoleLog "5. OpenAI does NOT support prefilling like Anthropic"
      consoleLog "\n📚 Official Docs:"
      consoleLog "- Chat API: https://platform.openai.com/docs/guides/chat-completions"
      consoleLog "- Structured Outputs: https://platform.openai.com/docs/guides/structured-outputs"
      consoleLog "\n")
    (fun error => do
      consoleError ("Error running examples: " ++ error.message)
      if error.status = some 401 then
        consoleError "\n⚠️  Check your OpenAI API key in .env file"
      else if error.status = some 429 then
        consoleError "\n⚠️  Rate limit exceeded. Wait a moment and try again."
      else
        consoleError ("\n⚠️  Full error: " ++ rt.inspect error))

end OpenAI

/-! ## `initial_llm_call_anthropic.js` -/

namespace InitialAnthropic

/-- The request built by `askClaude`. -/
def request (question : String) : ChatRequest :=
  { model := "claude-sonnet-4-20250514"
    max_tokens := 1024
    system := none
    messages := [ { role := .user, content := question } ]
    response_format := none }

/-- The function `askClaude`. -/
def askClaude (api : Remote) (question : String) : Prog Unit := do
  let message ← create api (request question)
  consoleLog message

/-- How `console.log` renders `process.env.ANTHROPIC_API_KEY`: the string, or `undefined`
when the variable is not set. -/
def showEnv : Option String → String
  | some v => v
  | none => "undefined"

/-- The script: the top-level `console.log` of the credential, then the call of `askClaude`. -/
def script (apiKey : Option String) (api : Remote) : Prog Unit := do
  consoleLog ("process.env.ANTHROPIC_API_KEY: " ++ showEnv apiKey)
  askClaude api "Estimate materials for a 100m² concrete slab, 10cm thick"

end InitialAnthropic

/-! ## `initial_llm_call_openai.js` -/

namespace InitialOpenAI

/-- The request built by `askGPT`. -/
def request (question : String) : ChatRequest :=
  { model := "gpt-4o-mini"
    max_tokens := 1024
    system := none
    messages := [ { role := .user, content := question } ]
    response_format := none }

/-- The function `askGPT`. -/
def askGPT (api : Remote) (question : String) : Prog Unit := do
  let completion ← create api (request question)
  consoleLog completion

/-- The script: the call of `askGPT`; the credential is only passed to the client. -/
def script (_apiKey : Option String) (api : Remote) : Prog Unit :=
  askGPT api "Estimate materials for a 100m² concrete slab, 10cm thick"

end InitialOpenAI

/-! ## `estimator.js` -/

namespace Estimator

/-- The template literal `SYSTEM_PROMPT`. -/
def SYSTEM_PROMPT : String :=
  "You are an expert construction cost estimator.\n" ++
  "Provide detailed material and labor estimates in this format:\n" ++
  "\n" ++
  "## Materials\n" ++
  "- [Material]: [Quantity] [Unit] @ $[Price/Unit] = $[Total]\n" ++
  "\n" ++
  "## Labor\n" ++
  "- [Task]: [Hours] hrs @ $[Rate/hr] = $[Total]\n" ++
  "\n" ++
  "## Total: $[Amount]\n" ++
  "\n" ++
  "Always include safety factor of 10% and explain assumptions."

/-- The request built by `estimateProject`. -/
def request (description : String) : ChatRequest :=
  { model := "gpt-4o-mini"
    max_tokens := 1024
    system := none
    messages :=
      [ { role := .system, content := SYSTEM_PROMPT },
        { role := .user, content := description } ]
    response_format := none }

/-- The function `estimateProject`; it has no `return`, so its value is `undefined`. -/
def estimateProject (api : Remote) (description : String) : Prog Unit := do
  let completion ← create api (request description)
  consoleLog completion

/-- How `console.log` renders the value of a call of `estimateProject`. -/
def showResult : Unit → String := fun _ => "undefined"

/-- The script: the awaited call of `estimateProject`, then `console.log(result)`. -/
def script (api : Remote) : Prog Unit := do
  let result ← estimateProject api "Build a 15m² wooden deck, 2m above ground, with railing"
  consoleLog (showResult result)

end Estimator

/-! ## Expected traces

The events each function appends to the trace, as lists; the lemmas of the next section show
that the programs above produce them. -/

/-- Events of the JSON output step on `text`: the text is handed to `JSON.parse`; when it parses,
the value is printed with two-space indentation, otherwise the warning and the text itself. -/
def jsonStepEvents (rt : Runtime) (text : String) : List Event :=
  Event.parse text ::
    match rt.parse text with
    | .ok v => [Event.log (rt.stringify v 2)]
    | .error _ => [Event.log "Raw response (failed to parse JSON):", Event.log text]

namespace Anthropic

/-- Events of `example1_rolePrompting` up to and including its call. -/
def example1_started : List Event :=
  [ Event.log ("\n" ++ strRepeat "=" 80),
    Event.log "EXAMPLE 1: ROLE PROMPTING ONLY",
    Event.log (strRepeat "=" 80),
    Event.log "Using system prompt to define the AI's role\n",
    Event.call example1_request ]

/-- Events of a run of `example1_rolePrompting` whose call returns `t`. -/
def example1_trace (t : String) : List Event :=
  example1_started ++ [Event.log "Response:", Event.log t]

/-- Events of `example2_prefill` up to and including its call. -/
def example2_started : List Event :=
  [ Event.log ("\n" ++ strRepeat "=" 80),
    Event.log "EXAMPLE 2: PREFILL ONLY",
    Event.log (strRepeat "=" 80),
    Event.log "Using assistant prefill to guide the response direction\n",
    Event.call example2_request ]

/-- Events of a run of `example2_prefill` whose call returns `t`. -/
def example2_trace (t : String) : List Event :=
  example2_started ++
    [ Event.log "Prefill used: \"Based on structural engineering principles, I recommend\"",
      Event.log "\nResponse (continues from prefill):",
      Event.log ("Based on structural engineering principles, I recommend" ++ t) ]

/-- Events of `example3_roleAndPrefill` up to and including its call. -/
def example3_started : List Event :=
  [ Event.log ("\n" ++ strRepeat "=" 80),
    Event.log "EXAMPLE 3: ROLE + PREFILL COMBINED",
    Event.log (strRepeat "=" 80),
    Event.log "Combining system prompt (role) with assistant prefill\n",
    Event.call example3_request ]

/-- Events of a run of `example3_roleAndPrefill` whose call returns `t`. -/
def example3_trace (t : String) : List Event :=
  example3_started ++
    [ Event.log "System Role: Safety inspector with Central America expertise",
      Event.log "Prefill: \"SAFETY VIOLATION REPORT\\n\\nCritical Issues Identified:\"",
      Event.log "\nResponse:",
      Event.log ("SAFETY VIOLATION REPORT\n\nCritical Issues Identified:" ++ t) ]

/-- Events of `example4_allTogether` up to and including its call. -/
def example4_started : List Event :=
  [ Event.log ("\n" ++ strRepeat "=" 80),
    Event.log "EXAMPLE 4: ROLE + PREFILL + JSON OUTPUT",
    Event.log (strRepeat "=" 80),
    Event.log "Combining all three techniques for structured JSON response\n",
    Event.call example4_request ]

/-- Events of a run of `example4_allTogether` whose call returns `t`. -/
def example4_trace (rt : Runtime) (t : String) : List Event :=
  example4_started ++
    [ Event.log "System Role: Civil engineer + JSON format requirements",
      Event.log "Prefill: \"\x7b\"",
      Event.log "\nJSON Response:" ] ++
    jsonStepEvents rt ("\x7b" ++ t)

/-- The two title lines `runAllExamples` prints first. -/
def opening : List Event :=
  [ Event.log "\n🎓 PROMPT ENGINEERING EXAMPLES",
    Event.log "Learning: Role Prompting + Prefill + JSON Output\n" ]

/-- The completion banner and the takeaways `runAllExamples` prints after the last example. -/
def closing : List Event :=
  [ Event.log ("\n" ++ strRepeat "=" 80),
    Event.log "✅ ALL EXAMPLES COMPLETED",
    Event.log (strRepeat "=" 80),
    Event.log "\nKey Takeaways:",
    Event.log "1. System prompt = Define the AI's role and expertise",
    Event.log "2. Prefill = Start the response to guide format/tone",
    Event.log "3. Combine both = Maximum control over output",
    Event.log "4. JSON prefill with \"\x7b\" = Reliable structured output",
    Event.log "\n" ]

/-- Events of the `catch` block of `runAllExamples` for the error `e`. -/
def caught (e : JsError) : List Event :=
  Event.error ("Error running examples: " ++ e.message) ::
    if e.status = some 400 then
      [Event.error "\n⚠️  Check your Anthropic API credits at: https://console.anthropic.com/settings/billing"]
    else []

end Anthropic

namespace OpenAI

/-- Events of `example3_roleAndFewShot` up to and including its call. -/
def example3_started : List Event :=
  [ Event.log ("\n" ++ strRepeat "=" 80),
    Event.log "EXAMPLE 3: ROLE + FEW-SHOT COMBINED",
    Event.log (strRepeat "=" 80),
    Event.log "Combining system role with example-based learning\n",
    Event.call example3_request ]

/-- Events of a run of `example3_roleAndFewShot` whose call returns `t`. -/
def example3_trace (t : String) : List Event :=
  example3_started ++
    [ Event.log "System Role: Safety inspector",
      Event.log "Few-shot: 1 example inspection report",
      Event.log "\nResponse (should follow report format):",
      Event.log t ]

/-- Events of `example4_jsonObjectMode` up to the JSON output step, for the reply `t`. -/
def example4_started : List Event :=
  [ Event.log ("\n" ++ strRepeat "=" 80),
    Event.log "EXAMPLE 4: JSON OBJECT MODE (Basic)",
    Event.log (strRepeat "=" 80),
    Event.log "Using response_format: \x7b type: \"json_object\" \x7d\n",
    Event.call example4_request,
    Event.log "Method: response_format: \x7b type: \"json_object\" \x7d",
    Event.log "✅ Guarantees valid JSON",
    Event.log "⚠️  Does NOT guarantee schema compliance\n",
    Event.log "JSON Response:" ]

/-- Events of `example5_structuredOutputs` up to the JSON output step. -/
def example5_started : List Event :=
  [ Event.log ("\n" ++ strRepeat "=" 80),
    Event.log "EXAMPLE 5: STRUCTURED OUTPUTS WITH JSON SCHEMA (Best Practice)",
    Event.log (strRepeat "=" 80),
    Event.log "Using json_schema for guaranteed schema compliance\n",
    Event.log "📖 Introduced August 2024",
    Event.log "📚 Docs: https://platform.openai.com/docs/guides/structured-outputs\n",
    Event.call example5_request,
    Event.log "Method: json_schema with strict: true",
    Event.log "✅ Guarantees valid JSON",
    Event.log "✅ Guarantees exact schema compliance",
    Event.log "✅ Type-safe responses\n",
    Event.log "JSON Response:" ]

/-- The two title lines `runAllExamples` prints first. -/
def opening : List Event :=
  [ Event.log "\n🎓 PROMPT ENGINEERING EXAMPLES (OpenAI - Research Verified)",
    Event.log "Learning: Role Prompting + Few-Shot Learning + JSON Output\n" ]

/-- The completion banner and the takeaways `runAllExamples` prints after the last example. -/
def closing : List Event :=
  [ Event.log ("\n" ++ strRepeat "=" 80),
    Event.log "✅ ALL EXAMPLES COMPLETED",
    Event.log (strRepeat "=" 80),
    Event.log "\nKey Takeaways (OpenAI):",
    Event.log "1. System message = Define AI role and expertise",
    Event.log "2. Few-shot learning = Teach format through examples (NOT prefilling)",
    Event.log "3. json_object mode = Valid JSON (basic)",
    Event.log "4. json_schema mode = Exact schema compliance (recommended)",
    Event.log "5. OpenAI does NOT support prefilling like Anthropic",
    Event.log "\n📚 Official Docs:",
    Event.log "- Chat API: https://platform.openai.com/docs/guides/chat-completions",
    Event.log "- Structured Outputs: https://platform.openai.com/docs/guides/structured-outputs",
    Event.log "\n" ]

/-- Events of the `catch` block of `runAllExamples` for the error `e`. -/
def caught (rt : Runtime) (e : JsError) : List Event :=
  [ Event.error ("Error running examples: " ++ e.message),
    if e.status = some 401 then
      Event.error "\n⚠️  Check your OpenAI API key in .env file"
    else if e.status = some 429 then
      Event.error "\n⚠️  Rate limit exceeded. Wait a moment and try again."
    else
      Event.error ("\n⚠️  Full error: " ++ rt.inspect e) ]

end OpenAI

/-! ## Properties of requests, schemas and parsed values -/

/-- The turns of a request without a leading system turn. -/
def stripSystem : List Turn → List Turn
  | [] => []
  | t :: ts => if t.role = Role.system then ts else t :: ts

/-- The role that follows `r` in an alternating conversation. -/
def Role.next : Role → Role
  | .user => .assistant
  | .assistant => .user
  | .system => .system

/-- The turns carry the roles `r`, `r.next`, `r.next.next`, ... in this order. -/
def alternatesFrom : Role → List Turn → Bool
  | _, [] => true
  | r, t :: ts => decide (t.role = r) && alternatesFrom r.next ts

/-- Ignoring a leading system turn, the turns alternate user, assistant, user, ... -/
def turnsAlternate (req : ChatRequest) : Bool :=
  alternatesFrom .user (stripSystem req.messages)

/-- Role of the last turn of a request. -/
def lastRole (req : ChatRequest) : Option Role :=
  req.messages.getLast?.map Turn.role

/-- Names declared under `properties` of an object schema. -/
def Schema.propertyNames : Schema → List String
  | .object properties _ _ => properties.map Prod.fst
  | _ => []

/-- The `required` list of an object schema. -/
def Schema.requiredNames : Schema → List String
  | .object _ required _ => required
  | _ => []

/-- The `additionalProperties` flag of an object schema. -/
def Schema.additional : Schema → Option Bool
  | .object _ _ additionalProperties => some additionalProperties
  | _ => none

/-- The schema declared for the property `name` of an object schema. -/
def Schema.property (name : String) : Schema → Option Schema
  | .object properties _ _ => properties.lookup name
  | _ => none

/-- The `items` schema of an array schema. -/
def Schema.itemType : Schema → Option Schema
  | .array items => some items
  | _ => none

/-- An object level is closed: `required` lists exactly the declared properties, without
duplicates, and `additionalProperties` is `false`. -/
def Schema.closedHere (s : Schema) : Prop :=
  s.requiredNames = s.propertyNames ∧ s.requiredNames.Nodup ∧ s.additional = some false

mutual
/-- Every object level of the schema is closed: at each one `required` lists exactly the declared
properties, without duplicates, and `additionalProperties` is `false`. -/
def Schema.closedEverywhere : Schema → Bool
  | .string _ _ => true
  | .number _ _ => true
  | .array items => items.closedEverywhere
  | .object properties required additionalProperties =>
      decide (required = properties.map Prod.fst) && decide required.Nodup &&
        !additionalProperties && Schema.closedAll properties
/-- Every schema of a property list is closed at every object level. -/
def Schema.closedAll : List (String × Schema) → Bool
  | [] => true
  | (_, s) :: rest => s.closedEverywhere && Schema.closedAll rest
end

/-- The turn-sequence invariant of a request that ends on a turn of role `last`: ignoring a
leading system turn the turns alternate user, assistant, user, ..., and the last turn has role
`last`. -/
def turnInvariant (last : Role) (req : ChatRequest) : Prop :=
  turnsAlternate req = true ∧ lastRole req = some last

/-- Top-level member names of a parsed value (none unless it is an object). -/
def Json.keys : Json → List String
  | .obj members => members.map Prod.fst
  | _ => []

/-- The value satisfies the object keywords of the schema, as JSON Schema defines them: it is an
object, every name in `required` is a member, and when `additionalProperties` is `false` every
member is a declared property.  (The schemas of the members are not looked at.) -/
def Schema.admitsKeys (s : Schema) (v : Json) : Prop :=
  match s, v with
  | .object properties required additionalProperties, .obj members =>
      (∀ name ∈ required, name ∈ members.map Prod.fst) ∧
      (additionalProperties = false →
        ∀ name ∈ members.map Prod.fst, name ∈ properties.map Prod.fst)
  | _, _ => False

/-! ## Concrete providers and runtimes -/

/-- A reply text with the six members of the risk assessment. -/
def sampleAssessmentText : String :=
  "\x7b\"riskLevel\": \"high\", \"projectName\": \"Tegucigalpa apartments\", \"risks\": [], " ++
  "\"estimatedDelay\": \"2 months\", \"budgetImpact\": \"15%\", \"recommendations\": []\x7d"

/-- The value `sampleAssessmentText` stands for. -/
def sampleAssessment : Json :=
  .obj
    [ ("riskLevel", .str "high"),
      ("projectName", .str "Tegucigalpa apartments"),
      ("risks", .arr []),
      ("estimatedDelay", .str "2 months"),
      ("budgetImpact", .str "15%"),
      ("recommendations", .arr []) ]


/-- A provider that rejects every call with the error `e`. -/
def rejecting (e : JsError) : Remote := fun _ _ => .error e

/-- A provider that answers every call with the text `t`. -/
def answering (t : String) : Remote := fun _ _ => .ok t

/-- A provider that answers the first `n` calls with `t` and rejects the later ones with `e`. -/
def failingAfter (n : Nat) (t : String) (e : JsError) : Remote := fun k _ =>
  if k < n then .ok t else .error e

/-- A runtime whose `JSON.parse` accepts exactly the texts of `table`; its `JSON.stringify`
shows the member names only. -/
def tableRuntime (table : List (String × Json)) : Runtime :=
  { parse := fun text =>
      match table.lookup text with
      | some v => .ok v
      | none => .error ⟨"Unexpected token in JSON", none⟩
    stringify := fun v _ => "\x7b" ++ ", ".intercalate v.keys ++ "\x7d"
    inspect := fun e => e.message }

/-! ## Evaluation lemmas -/

section Lemmas

variable {α β : Type}

theorem bind_eq (p : Prog α) (f : α → Prog β) : (p >>= f) = Prog.bind p f := rfl

@[simp] theorem consoleLog_bind (s : String) (f : Unit → Prog β) (tr : List Event) :
    (consoleLog s >>= f) tr = f () (tr ++ [Event.log s]) := rfl

@[simp] theorem consoleError_bind (s : String) (f : Unit → Prog β) (tr : List Event) :
    (consoleError s >>= f) tr = f () (tr ++ [Event.error s]) := rfl

@[simp] theorem sleep_bind (ms : Nat) (f : Unit → Prog β) (tr : List Event) :
    (sleep ms >>= f) tr = f () (tr ++ [Event.pause ms]) := rfl

@[simp] theorem consoleLog_apply (s : String) (tr : List Event) :
    consoleLog s tr = ⟨.ok (), tr ++ [Event.log s]⟩ := rfl

@[simp] theorem consoleError_apply (s : String) (tr : List Event) :
    consoleError s tr = ⟨.ok (), tr ++ [Event.error s]⟩ := rfl

@[simp] theorem pure_apply (a : α) (tr : List Event) :
    (Pure.pure a : Prog α) tr = ⟨.ok a, tr⟩ := rfl

theorem create_bind_ok (api : Remote) (req : ChatRequest) (f : String → Prog β)
    (tr : List Event) (t : String) (h : api (callCount tr) req = .ok t) :
    (create api req >>= f) tr = f t (tr ++ [Event.call req]) := by
  show Prog.bind (create api req) f tr = _
  simp [Prog.bind, create, h]

theorem create_bind_error (api : Remote) (req : ChatRequest) (f : String → Prog β)
    (tr : List Event) (e : JsError) (h : api (callCount tr) req = .error e) :
    (create api req >>= f) tr = ⟨.error e, tr ++ [Event.call req]⟩ := by
  show Prog.bind (create api req) f tr = _
  simp [Prog.bind, create, h]

@[simp] theorem callCount_nil : callCount [] = 0 := rfl

@[simp] theorem callCount_append (a b : List Event) :
    callCount (a ++ b) = callCount a + callCount b := by
  simp [callCount]

@[simp] theorem callCount_cons_log (s : String) (es : List Event) :
    callCount (Event.log s :: es) = callCount es := rfl

@[simp] theorem callCount_cons_error (s : String) (es : List Event) :
    callCount (Event.error s :: es) = callCount es := rfl

@[simp] theorem callCount_cons_pause (n : Nat) (es : List Event) :
    callCount (Event.pause n :: es) = callCount es := rfl

@[simp] theorem callCount_cons_parse (s : String) (es : List Event) :
    callCount (Event.parse s :: es) = callCount es := rfl

@[simp] theorem callCount_cons_call (r : ChatRequest) (es : List Event) :
    callCount (Event.call r :: es) = callCount es + 1 := rfl

@[simp] theorem prog_bind_assoc {γ : Type} (p : Prog α) (f : α → Prog β) (g : β → Prog γ) :
    ((p >>= f) >>= g) = (p >>= fun a => f a >>= g) := by
  funext tr
  show Prog.bind (Prog.bind p f) g tr = Prog.bind p (fun a => Prog.bind (f a) g) tr
  unfold Prog.bind
  rcases p tr with ⟨r, tr1⟩
  cases r <;> rfl

theorem tryCatch_of_ok (body : Prog α) (handler : JsError → Prog α) (tr tr1 : List Event) (a : α)
    (h : body tr = ⟨.ok a, tr1⟩) : Prog.tryCatch body handler tr = ⟨.ok a, tr1⟩ := by
  simp [Prog.tryCatch, h]

theorem tryCatch_of_error (body : Prog α) (handler : JsError → Prog α) (tr tr1 : List Event)
    (e : JsError) (h : body tr = ⟨.error e, tr1⟩) :
    Prog.tryCatch body handler tr = handler e tr1 := by
  simp [Prog.tryCatch, h]

theorem bind_of_ok (p : Prog α) (f : α → Prog β) (tr tr1 : List Event) (a : α)
    (h : p tr = ⟨.ok a, tr1⟩) : (p >>= f) tr = f a tr1 := by
  show Prog.bind p f tr = _
  simp [Prog.bind, h]

theorem bind_of_error (p : Prog α) (f : α → Prog β) (tr tr1 : List Event) (e : JsError)
    (h : p tr = ⟨.error e, tr1⟩) : (p >>= f) tr = ⟨.error e, tr1⟩ := by
  show Prog.bind p f tr = _
  simp [Prog.bind, h]

theorem create_error (api : Remote) (req : ChatRequest) (tr : List Event) (e : JsError)
    (h : api (callCount tr) req = .error e) :
    create api req tr = ⟨.error e, tr ++ [Event.call req]⟩ := by
  simp [create, h]

/-- The `try`/`catch` block around `JSON.parse` never throws. -/
theorem jsonStep_apply (rt : Runtime) (text : String) (tr : List Event) :
    Prog.tryCatch
        (do
          let parsed ← jsonParse rt text
          consoleLog (rt.stringify parsed 2))
        (fun _ => do
          consoleLog "Raw response (failed to parse JSON):"
          consoleLog text) tr
      = ⟨.ok (), tr ++ jsonStepEvents rt text⟩ := by
  cases hp : rt.parse text <;>
    simp [Prog.tryCatch, bind_eq, Prog.bind, jsonParse, jsonStepEvents, hp]

theorem requests_append (a b : List Event) : requests (a ++ b) = requests a ++ requests b := by
  induction a with
  | nil => rfl
  | cons e es ih => cases e <;> simp [requests, ih]

theorem stdout_append (a b : List Event) : stdout (a ++ b) = stdout a ++ stdout b := by
  induction a with
  | nil => rfl
  | cons e es ih => cases e <;> simp [stdout, ih]

theorem stderr_append (a b : List Event) : stderr (a ++ b) = stderr a ++ stderr b := by
  induction a with
  | nil => rfl
  | cons e es ih => cases e <;> simp [stderr, ih]

theorem parsed_append (a b : List Event) : parsed (a ++ b) = parsed a ++ parsed b := by
  induction a with
  | nil => rfl
  | cons e es ih => cases e <;> simp [parsed, ih]

theorem pauses_append (a b : List Event) : pauses (a ++ b) = pauses a ++ pauses b := by
  induction a with
  | nil => rfl
  | cons e es ih => cases e <;> simp [pauses, ih]

end Lemmas

/-! ## Runs of the example functions -/

namespace Anthropic

theorem anthropic_example1_ok (api : Remote) (tr : List Event) (t : String)
    (h : api (callCount tr) example1_request = .ok t) :
    example1_rolePrompting api tr = ⟨.ok (), tr ++ example1_trace t⟩ := by
  unfold example1_rolePrompting
  simp only [consoleLog_bind]
  rw [create_bind_ok _ _ _ _ t (by simpa using h)]
  simp [example1_trace, example1_started]

theorem anthropic_example1_error (api : Remote) (tr : List Event) (e : JsError)
    (h : api (callCount tr) example1_request = .error e) :
    example1_rolePrompting api tr = ⟨.error e, tr ++ example1_started⟩ := by
  unfold example1_rolePrompting
  simp only [consoleLog_bind]
  rw [create_bind_error _ _ _ _ e (by simpa using h)]
  simp [example1_started]

theorem anthropic_example2_ok (api : Remote) (tr : List Event) (t : String)
    (h : api (callCount tr) example2_request = .ok t) :
    example2_prefill api tr = ⟨.ok (), tr ++ example2_trace t⟩ := by
  unfold example2_prefill
  simp only [consoleLog_bind]
  rw [create_bind_ok _ _ _ _ t (by simpa using h)]
  simp [example2_trace, example2_started]

theorem anthropic_example2_error (api : Remote) (tr : List Event) (e : JsError)
    (h : api (callCount tr) example2_request = .error e) :
    example2_prefill api tr = ⟨.error e, tr ++ example2_started⟩ := by
  unfold example2_prefill
  simp only [consoleLog_bind]
  rw [create_bind_error _ _ _ _ e (by simpa using h)]
  simp [example2_started]

theorem anthropic_example3_ok (api : Remote) (tr : List Event) (t : String)
    (h : api (callCount tr) example3_request = .ok t) :
    example3_roleAndPrefill api tr = ⟨.ok (), tr ++ example3_trace t⟩ := by
  unfold example3_roleAndPrefill
  simp only [consoleLog_bind]
  rw [create_bind_ok _ _ _ _ t (by simpa using h)]
  simp [example3_trace, example3_started]

theorem anthropic_example3_error (api : Remote) (tr : List Event) (e : JsError)
    (h : api (callCount tr) example3_request = .error e) :
    example3_roleAndPrefill api tr = ⟨.error e, tr ++ example3_started⟩ := by
  unfold example3_roleAndPrefill
  simp only [consoleLog_bind]
  rw [create_bind_error _ _ _ _ e (by simpa using h)]
  simp [example3_started]

theorem anthropic_example4_ok (api : Remote) (rt : Runtime) (tr : List Event) (t : String)
    (h : api (callCount tr) example4_request = .ok t) :
    example4_allTogether api rt tr = ⟨.ok (), tr ++ example4_trace rt t⟩ := by
  unfold example4_allTogether
  simp only [consoleLog_bind]
  rw [create_bind_ok _ _ _ _ t (by simpa using h)]
  simp only [consoleLog_bind]
  rw [jsonStep_apply]
  simp [example4_trace, example4_started]

theorem anthropic_example4_error (api : Remote) (rt : Runtime) (tr : List Event) (e : JsError)
    (h : api (callCount tr) example4_request = .error e) :
    example4_allTogether api rt tr = ⟨.error e, tr ++ example4_started⟩ := by
  unfold example4_allTogether
  simp only [consoleLog_bind]
  rw [create_bind_error _ _ _ _ e (by simpa using h)]
  simp [example4_started]

end Anthropic

namespace OpenAI

theorem openai_example3_ok (api : Remote) (tr : List Event) (t : String)
    (h : api (callCount tr) example3_request = .ok t) :
    example3_roleAndFewShot api tr = ⟨.ok (), tr ++ example3_trace t⟩ := by
  unfold example3_roleAndFewShot
  simp only [consoleLog_bind]
  rw [create_bind_ok _ _ _ _ t (by simpa using h)]
  simp [example3_trace, example3_started]

theorem openai_example3_error (api : Remote) (tr : List Event) (e : JsError)
    (h : api (callCount tr) example3_request = .error e) :
    example3_roleAndFewShot api tr = ⟨.error e, tr ++ example3_started⟩ := by
  unfold example3_roleAndFewShot
  simp only [consoleLog_bind]
  rw [create_bind_error _ _ _ _ e (by simpa using h)]
  simp [example3_started]

theorem openai_example4_ok (api : Remote) (rt : Runtime) (tr : List Event) (t : String)
    (h : api (callCount tr) example4_request = .ok t) :
    example4_jsonObjectMode api rt tr =
      ⟨.ok (), tr ++ example4_started ++ jsonStepEvents rt t⟩ := by
  unfold example4_jsonObjectMode
  simp only [consoleLog_bind]
  rw [create_bind_ok _ _ _ _ t (by simpa using h)]
  simp only [consoleLog_bind]
  rw [jsonStep_apply]
  simp [example4_started]

theorem openai_example5_ok (api : Remote) (rt : Runtime) (tr : List Event) (t : String)
    (h : api (callCount tr) example5_request = .ok t) :
    example5_structuredOutputs api rt tr =
      ⟨.ok (), tr ++ example5_started ++ jsonStepEvents rt t⟩ := by
  unfold example5_structuredOutputs
  simp only [consoleLog_bind]
  rw [create_bind_ok _ _ _ _ t (by simpa using h)]
  simp only [consoleLog_bind]
  rw [jsonStep_apply]
  simp [example5_started]

end OpenAI


/-! ## Runs of the two runners -/

namespace Anthropic

/-- The `catch` block of `runAllExamples` produces `caught e` and does not throw. -/
theorem anthropic_handler_apply (e : JsError) (tr : List Event) :
    (do
      consoleError ("Error running examples: " ++ e.message)
      if e.status = some 400 then
        consoleError "\n⚠️  Check your Anthropic API credits at: https://console.anthropic.com/settings/billing"
      : Prog Unit) tr = ⟨.ok (), tr ++ caught e⟩ := by
  simp only [consoleError_bind]
  by_cases hs : e.status = some 400 <;> simp [caught, hs]

theorem anthropic_run_fail1 (api : Remote) (rt : Runtime) (e : JsError)
    (h1 : api 0 example1_request = .error e) :
    runAllExamples api rt [] = ⟨.ok (), opening ++ example1_started ++ caught e⟩ := by
  unfold runAllExamples
  simp only [consoleLog_bind]
  rw [tryCatch_of_error _ _ _ (opening ++ example1_started) e, anthropic_handler_apply]
  rw [bind_of_error _ _ _ _ e (anthropic_example1_error api _ e (by simpa using h1))]
  simp [opening]

theorem anthropic_run_fail2 (api : Remote) (rt : Runtime) (t1 : String) (e : JsError)
    (h1 : api 0 example1_request = .ok t1)
    (h2 : api 1 example2_request = .error e) :
    runAllExamples api rt [] =
      ⟨.ok (), opening ++ example1_trace t1 ++ [Event.pause 1000] ++ example2_started ++
        caught e⟩ := by
  unfold runAllExamples
  simp only [consoleLog_bind]
  rw [tryCatch_of_error _ _ _
    (opening ++ example1_trace t1 ++ [Event.pause 1000] ++ example2_started) e, anthropic_handler_apply]
  rw [bind_of_ok _ _ _ _ () (anthropic_example1_ok api _ t1 (by simpa using h1))]
  simp only [sleep_bind]
  rw [bind_of_error _ _ _ _ e (anthropic_example2_error api _ e
    (by simpa [example1_trace, example1_started] using h2))]
  simp [opening]

theorem anthropic_run_fail3 (api : Remote) (rt : Runtime) (t1 t2 : String) (e : JsError)
    (h1 : api 0 example1_request = .ok t1)
    (h2 : api 1 example2_request = .ok t2)
    (h3 : api 2 example3_request = .error e) :
    runAllExamples api rt [] =
      ⟨.ok (), opening ++ example1_trace t1 ++ [Event.pause 1000] ++ example2_trace t2 ++
        [Event.pause 1000] ++ example3_started ++ caught e⟩ := by
  unfold runAllExamples
  simp only [consoleLog_bind]
  rw [tryCatch_of_error _ _ _
    (opening ++ example1_trace t1 ++ [Event.pause 1000] ++ example2_trace t2 ++
      [Event.pause 1000] ++ example3_started) e, anthropic_handler_apply]
  rw [bind_of_ok _ _ _ _ () (anthropic_example1_ok api _ t1 (by simpa using h1))]
  simp only [sleep_bind]
  rw [bind_of_ok _ _ _ _ () (anthropic_example2_ok api _ t2
    (by simpa [example1_trace, example1_started] using h2))]
  simp only [sleep_bind]
  rw [bind_of_error _ _ _ _ e (anthropic_example3_error api _ e
    (by simpa [example1_trace, example1_started, example2_trace, example2_started] using h3))]
  simp [opening]

theorem anthropic_run_fail4 (api : Remote) (rt : Runtime) (t1 t2 t3 : String) (e : JsError)
    (h1 : api 0 example1_request = .ok t1)
    (h2 : api 1 example2_request = .ok t2)
    (h3 : api 2 example3_request = .ok t3)
    (h4 : api 3 example4_request = .error e) :
    runAllExamples api rt [] =
      ⟨.ok (), opening ++ example1_trace t1 ++ [Event.pause 1000] ++ example2_trace t2 ++
        [Event.pause 1000] ++ example3_trace t3 ++ [Event.pause 1000] ++ example4_started ++
        caught e⟩ := by
  unfold runAllExamples
  simp only [consoleLog_bind]
  rw [tryCatch_of_error _ _ _
    (opening ++ example1_trace t1 ++ [Event.pause 1000] ++ example2_trace t2 ++
      [Event.pause 1000] ++ example3_trace t3 ++ [Event.pause 1000] ++ example4_started) e,
    anthropic_handler_apply]
  rw [bind_of_ok _ _ _ _ () (anthropic_example1_ok api _ t1 (by simpa using h1))]
  simp only [sleep_bind]
  rw [bind_of_ok _ _ _ _ () (anthropic_example2_ok api _ t2
    (by simpa [example1_trace, example1_started] using h2))]
  simp only [sleep_bind]
  rw [bind_of_ok _ _ _ _ () (anthropic_example3_ok api _ t3
    (by simpa [example1_trace, example1_started, example2_trace, example2_started] using h3))]
  simp only [sleep_bind]
  rw [bind_of_error _ _ _ _ e (anthropic_example4_error api rt _ e
    (by simpa [example1_trace, example1_started, example2_trace, example2_started,
      example3_trace, example3_started] using h4))]
  simp [opening]

theorem anthropic_run_ok (api : Remote) (rt : Runtime) (t1 t2 t3 t4 : String)
    (h1 : api 0 example1_request = .ok t1)
    (h2 : api 1 example2_request = .ok t2)
    (h3 : api 2 example3_request = .ok t3)
    (h4 : api 3 example4_request = .ok t4) :
    runAllExamples api rt [] =
      ⟨.ok (), opening ++ example1_trace t1 ++ [Event.pause 1000] ++ example2_trace t2 ++
        [Event.pause 1000] ++ example3_trace t3 ++ [Event.pause 1000] ++ example4_trace rt t4 ++
        closing⟩ := by
  unfold runAllExamples
  simp only [consoleLog_bind]
  apply tryCatch_of_ok
  rw [bind_of_ok _ _ _ _ () (anthropic_example1_ok api _ t1 (by simpa using h1))]
  simp only [sleep_bind]
  rw [bind_of_ok _ _ _ _ () (anthropic_example2_ok api _ t2
    (by simpa [example1_trace, example1_started] using h2))]
  simp only [sleep_bind]
  rw [bind_of_ok _ _ _ _ () (anthropic_example3_ok api _ t3
    (by simpa [example1_trace, example1_started, example2_trace, example2_started] using h3))]
  simp only [sleep_bind]
  rw [bind_of_ok _ _ _ _ () (anthropic_example4_ok api rt _ t4
    (by simpa [example1_trace, example1_started, example2_trace, example2_started,
      example3_trace, example3_started] using h4))]
  simp [opening, closing]

end Anthropic

namespace OpenAI

/-- The `catch` block of `runAllExamples` produces `caught rt e` and does not throw. -/
theorem openai_handler_apply (rt : Runtime) (e : JsError) (tr : List Event) :
    (do
      consoleError ("Error running examples: " ++ e.message)
      if e.status = some 401 then
        consoleError "\n⚠️  Check your OpenAI API key in .env file"
      else if e.status = some 429 then
        consoleError "\n⚠️  Rate limit exceeded. Wait a moment and try again."
      else
        consoleError ("\n⚠️  Full error: " ++ rt.inspect e)
      : Prog Unit) tr = ⟨.ok (), tr ++ caught rt e⟩ := by
  simp only [consoleError_bind]
  by_cases h401 : e.status = some 401
  · simp [caught, h401]
  · by_cases h429 : e.status = some 429 <;> simp [caught, h401, h429]

theorem openai_run_fail (api : Remote) (rt : Runtime) (e : JsError)
    (h : api 0 example3_request = .error e) :
    runAllExamples api rt [] =
      ⟨.ok (), opening ++ [Event.pause 1000] ++ example3_started ++ caught rt e⟩ := by
  unfold runAllExamples
  simp only [consoleLog_bind]
  rw [tryCatch_of_error _ _ _ (opening ++ [Event.pause 1000] ++ example3_started) e,
    openai_handler_apply]
  simp only [sleep_bind]
  rw [bind_of_error _ _ _ _ e (openai_example3_error api _ e (by simpa using h))]
  simp [opening]

theorem openai_run_ok (api : Remote) (rt : Runtime) (t : String)
    (h : api 0 example3_request = .ok t) :
    runAllExamples api rt [] =
      ⟨.ok (), opening ++ [Event.pause 1000] ++ example3_trace t ++ closing⟩ := by
  unfold runAllExamples
  simp only [consoleLog_bind]
  apply tryCatch_of_ok
  simp only [sleep_bind]
  rw [bind_of_ok _ _ _ _ () (openai_example3_ok api _ t (by simpa using h))]
  simp [opening, closing]

end OpenAI

/-! ## Projections of the expected traces -/

theorem callCount_eq_length_requests (tr : List Event) : callCount tr = (requests tr).length := by
  induction tr with
  | nil => rfl
  | cons e es ih => cases e <;> simp [callCount, requests, Event.isCall] at ih ⊢ <;> exact ih

theorem anthropic_caught_of_ne (e : JsError) (h : e.status ≠ some 400) :
    Anthropic.caught e = [Event.error ("Error running examples: " ++ e.message)] := by
  simp [Anthropic.caught, h]

theorem anthropic_callCount_caught (e : JsError) : callCount (Anthropic.caught e) = 0 := by
  by_cases h : e.status = some 400 <;> simp [Anthropic.caught, h]

theorem anthropic_requests_caught (e : JsError) : requests (Anthropic.caught e) = [] := by
  by_cases h : e.status = some 400 <;> simp [Anthropic.caught, h, requests]

theorem openai_callCount_caught (rt : Runtime) (e : JsError) :
    callCount (OpenAI.caught rt e) = 0 := by
  by_cases h1 : e.status = some 401
  · simp [OpenAI.caught, h1]
  · by_cases h2 : e.status = some 429 <;> simp [OpenAI.caught, h1, h2]

theorem openai_requests_caught (rt : Runtime) (e : JsError) :
    requests (OpenAI.caught rt e) = [] := by
  by_cases h1 : e.status = some 401
  · simp [OpenAI.caught, h1, requests]
  · by_cases h2 : e.status = some 429 <;> simp [OpenAI.caught, h1, h2, requests]

/-! ## Every function sends its one request -/

theorem requests_jsonStepEvents (rt : Runtime) (text : String) :
    requests (jsonStepEvents rt text) = [] := by
  unfold jsonStepEvents
  cases rt.parse text <;> rfl

theorem pauses_jsonStepEvents (rt : Runtime) (text : String) :
    pauses (jsonStepEvents rt text) = [] := by
  unfold jsonStepEvents
  cases rt.parse text <;> rfl

theorem callCount_jsonStepEvents (rt : Runtime) (text : String) :
    callCount (jsonStepEvents rt text) = 0 := by
  rw [callCount_eq_length_requests, requests_jsonStepEvents]
  rfl

theorem anthropic_example1_requests (api : Remote) (tr : List Event) :
    requests (Anthropic.example1_rolePrompting api tr).trace = requests tr ++ [Anthropic.example1_request] := by
  unfold Anthropic.example1_rolePrompting
  simp only [consoleLog_bind]
  rcases h : api (callCount tr) (Anthropic.example1_request) with e | t
  · rw [create_bind_error _ _ _ _ e (by simpa using h)]
    simp [requests_append, requests]
  · rw [create_bind_ok _ _ _ _ t (by simpa using h)]
    simp [requests_append, requests]

theorem anthropic_example2_requests (api : Remote) (tr : List Event) :
    requests (Anthropic.example2_prefill api tr).trace = requests tr ++ [Anthropic.example2_request] := by
  unfold Anthropic.example2_prefill
  simp only [consoleLog_bind]
  rcases h : api (callCount tr) (Anthropic.example2_request) with e | t
  · rw [create_bind_error _ _ _ _ e (by simpa using h)]
    simp [requests_append, requests]
  · rw [create_bind_ok _ _ _ _ t (by simpa using h)]
    simp [requests_append, requests]

theorem anthropic_example3_requests (api : Remote) (tr : List Event) :
    requests (Anthropic.example3_roleAndPrefill api tr).trace = requests tr ++ [Anthropic.example3_request] := by
  unfold Anthropic.example3_roleAndPrefill
  simp only [consoleLog_bind]
  rcases h : api (callCount tr) (Anthropic.example3_request) with e | t
  · rw [create_bind_error _ _ _ _ e (by simpa using h)]
    simp [requests_append, requests]
  · rw [create_bind_ok _ _ _ _ t (by simpa using h)]
    simp [requests_append, requests]

theorem anthropic_example4_requests (api : Remote) (rt : Runtime) (tr : List Event) :
    requests (Anthropic.example4_allTogether api rt tr).trace = requests tr ++ [Anthropic.example4_request] := by
  unfold Anthropic.example4_allTogether
  simp only [consoleLog_bind]
  rcases h : api (callCount tr) (Anthropic.example4_request) with e | t
  · rw [create_bind_error _ _ _ _ e (by simpa using h)]
    simp [requests_append, requests]
  · rw [create_bind_ok _ _ _ _ t (by simpa using h)]
    simp only [consoleLog_bind]
    rw [jsonStep_apply]
    simp only [requests_append, requests_jsonStepEvents, List.append_nil]
    simp [requests]

theorem openai_example1_requests (api : Remote) (tr : List Event) :
    requests (OpenAI.example1_rolePrompting api tr).trace = requests tr ++ [OpenAI.example1_request] := by
  unfold OpenAI.example1_rolePrompting
  simp only [consoleLog_bind]
  rcases h : api (callCount tr) (OpenAI.example1_request) with e | t
  · rw [create_bind_error _ _ _ _ e (by simpa using h)]
    simp [requests_append, requests]
  · rw [create_bind_ok _ _ _ _ t (by simpa using h)]
    simp [requests_append, requests]

theorem openai_example2_requests (api : Remote) (tr : List Event) :
    requests (OpenAI.example2_fewShotLearning api tr).trace = requests tr ++ [OpenAI.example2_request] := by
  unfold OpenAI.example2_fewShotLearning
  simp only [consoleLog_bind]
  rcases h : api (callCount tr) (OpenAI.example2_request) with e | t
  · rw [create_bind_error _ _ _ _ e (by simpa using h)]
    simp [requests_append, requests]
  · rw [create_bind_ok _ _ _ _ t (by simpa using h)]
    simp [requests_append, requests]

theorem openai_example3_requests (api : Remote) (tr : List Event) :
    requests (OpenAI.example3_roleAndFewShot api tr).trace = requests tr ++ [OpenAI.example3_request] := by
  unfold OpenAI.example3_roleAndFewShot
  simp only [consoleLog_bind]
  rcases h : api (callCount tr) (OpenAI.example3_request) with e | t
  · rw [create_bind_error _ _ _ _ e (by simpa using h)]
    simp [requests_append, requests]
  · rw [create_bind_ok _ _ _ _ t (by simpa using h)]
    simp [requests_append, requests]

theorem openai_example4_requests (api : Remote) (rt : Runtime) (tr : List Event) :
    requests (OpenAI.example4_jsonObjectMode api rt tr).trace = requests tr ++ [OpenAI.example4_request] := by
  unfold OpenAI.example4_jsonObjectMode
  simp only [consoleLog_bind]
  rcases h : api (callCount tr) (OpenAI.example4_request) with e | t
  · rw [create_bind_error _ _ _ _ e (by simpa using h)]
    simp [requests_append, requests]
  · rw [create_bind_ok _ _ _ _ t (by simpa using h)]
    simp only [consoleLog_bind]
    rw [jsonStep_apply]
    simp only [requests_append, requests_jsonStepEvents, List.append_nil]
    simp [requests]

theorem openai_example5_requests (api : Remote) (rt : Runtime) (tr : List Event) :
    requests (OpenAI.example5_structuredOutputs api rt tr).trace = requests tr ++ [OpenAI.example5_request] := by
  unfold OpenAI.example5_structuredOutputs
  simp only [consoleLog_bind]
  rcases h : api (callCount tr) (OpenAI.example5_request) with e | t
  · rw [create_bind_error _ _ _ _ e (by simpa using h)]
    simp [requests_append, requests]
  · rw [create_bind_ok _ _ _ _ t (by simpa using h)]
    simp only [consoleLog_bind]
    rw [jsonStep_apply]
    simp only [requests_append, requests_jsonStepEvents, List.append_nil]
    simp [requests]

theorem askClaude_requests (api : Remote) (question : String) (tr : List Event) :
    requests (InitialAnthropic.askClaude api question tr).trace = requests tr ++ [InitialAnthropic.request question] := by
  unfold InitialAnthropic.askClaude
  rcases h : api (callCount tr) (InitialAnthropic.request question) with e | t
  · rw [create_bind_error _ _ _ _ e (by simpa using h)]
    simp [requests_append, requests]
  · rw [create_bind_ok _ _ _ _ t (by simpa using h)]
    simp [requests_append, requests]

theorem askGPT_requests (api : Remote) (question : String) (tr : List Event) :
    requests (InitialOpenAI.askGPT api question tr).trace = requests tr ++ [InitialOpenAI.request question] := by
  unfold InitialOpenAI.askGPT
  rcases h : api (callCount tr) (InitialOpenAI.request question) with e | t
  · rw [create_bind_error _ _ _ _ e (by simpa using h)]
    simp [requests_append, requests]
  · rw [create_bind_ok _ _ _ _ t (by simpa using h)]
    simp [requests_append, requests]

theorem estimateProject_requests (api : Remote) (description : String) (tr : List Event) :
    requests (Estimator.estimateProject api description tr).trace = requests tr ++ [Estimator.request description] := by
  unfold Estimator.estimateProject
  rcases h : api (callCount tr) (Estimator.request description) with e | t
  · rw [create_bind_error _ _ _ _ e (by simpa using h)]
    simp [requests_append, requests]
  · rw [create_bind_ok _ _ _ _ t (by simpa using h)]
    simp [requests_append, requests]

/-! ## The JSON output step (C1) -/

/-- C1: for every reply text `t`, the JSON output step does not throw and has exactly two
outcomes.  In the Anthropic `example4_allTogether` the text handed to `JSON.parse` is the
character `\x7b` followed by `t`; in the OpenAI `example4_jsonObjectMode` and
`example5_structuredOutputs` it is `t` itself.  When the text parses, the value is printed with
two-space indentation; otherwise the line `Raw response (failed to parse JSON):` is printed,
followed by exactly the text that was handed to the parser. -/
theorem json_output_step_total (api : Remote) (rt : Runtime) (tr : List Event) (t : String) :
    (api (callCount tr) Anthropic.example4_request = .ok t →
      Anthropic.example4_allTogether api rt tr =
        ⟨.ok (), tr ++ Anthropic.example4_started ++
          [ Event.log "System Role: Civil engineer + JSON format requirements",
            Event.log "Prefill: \"\x7b\"",
            Event.log "\nJSON Response:",
            Event.parse ("\x7b" ++ t) ] ++
          (match rt.parse ("\x7b" ++ t) with
            | .ok v => [Event.log (rt.stringify v 2)]
            | .error _ =>
              [ Event.log "Raw response (failed to parse JSON):",
                Event.log ("\x7b" ++ t) ])⟩) ∧
    (api (callCount tr) OpenAI.example4_request = .ok t →
      OpenAI.example4_jsonObjectMode api rt tr =
        ⟨.ok (), tr ++ OpenAI.example4_started ++ [Event.parse t] ++
          (match rt.parse t with
            | .ok v => [Event.log (rt.stringify v 2)]
            | .error _ => [Event.log "Raw response (failed to parse JSON):", Event.log t])⟩) ∧
    (api (callCount tr) OpenAI.example5_request = .ok t →
      OpenAI.example5_structuredOutputs api rt tr =
        ⟨.ok (), tr ++ OpenAI.example5_started ++ [Event.parse t] ++
          (match rt.parse t with
            | .ok v => [Event.log (rt.stringify v 2)]
            | .error _ => [Event.log "Raw response (failed to parse JSON):", Event.log t])⟩) := by
  refine ⟨fun h => ?_, fun h => ?_, fun h => ?_⟩
  · rw [Anthropic.anthropic_example4_ok api rt tr t h]
    simp [Anthropic.example4_trace, jsonStepEvents]
  · rw [OpenAI.openai_example4_ok api rt tr t h]
    simp [jsonStepEvents]
  · rw [OpenAI.openai_example5_ok api rt tr t h]
    simp [jsonStepEvents]

/-- C1 at concrete inputs: the continuation `"a": 1}` after the prefill parses, and the
continuation `oops` does not; neither run throws. -/
theorem json_output_step_total_witness :
    (Anthropic.example4_allTogether (answering "\"a\": 1\x7d")
        (tableRuntime [("\x7b\"a\": 1\x7d", .obj [("a", .num 1 0)])]) []).trace =
      Anthropic.example4_started ++
        [ Event.log "System Role: Civil engineer + JSON format requirements",
          Event.log "Prefill: \"\x7b\"",
          Event.log "\nJSON Response:",
          Event.parse "\x7b\"a\": 1\x7d",
          Event.log "\x7ba\x7d" ] ∧
    (Anthropic.example4_allTogether (answering "oops") (tableRuntime []) []).trace =
      Anthropic.example4_started ++
        [ Event.log "System Role: Civil engineer + JSON format requirements",
          Event.log "Prefill: \"\x7b\"",
          Event.log "\nJSON Response:",
          Event.parse "\x7boops",
          Event.log "Raw response (failed to parse JSON):",
          Event.log "\x7boops" ] := by
  constructor
  · rw [(json_output_step_total (answering "\"a\": 1\x7d")
      (tableRuntime [("\x7b\"a\": 1\x7d", .obj [("a", .num 1 0)])]) [] "\"a\": 1\x7d").1 rfl]
    rfl
  · rw [(json_output_step_total (answering "oops") (tableRuntime []) [] "oops").1 rfl]
    rfl

/-! ## Failures of a call in the runners (C2, C3, C6) -/

/-- C2, as stated, fails: when the first call of the Anthropic runner is rejected with status
401, standard error holds the `Error running examples:` line and nothing else, so no
credential-check hint is printed; when the call of the OpenAI runner is rejected with status
403, the second line is the full error and not the credential-check hint. -/
theorem auth_hint_not_always_printed :
    stderr (Anthropic.runAllExamples (rejecting ⟨"invalid x-api-key", some 401⟩)
        (tableRuntime []) []).trace =
      ["Error running examples: invalid x-api-key"] ∧
    stderr (OpenAI.runAllExamples (rejecting ⟨"Country not supported", some 403⟩)
        (tableRuntime []) []).trace =
      ["Error running examples: Country not supported",
       "\n⚠️  Full error: Country not supported"] := by
  constructor
  · rw [Anthropic.anthropic_run_fail1 _ _ ⟨"invalid x-api-key", some 401⟩ rfl]
    rfl
  · rw [OpenAI.openai_run_fail _ _ ⟨"Country not supported", some 403⟩ rfl]
    rfl

/-- C2, amended: when an example call is rejected with status 401 or 403, no further outbound
call is attempted in either runner: the rejected call is the last call of the run and the run
ends with the output of the `catch` block.  The credential-check hint is printed by the OpenAI
runner for status 401 only (for 403 it prints the full error); the Anthropic runner prints the
`Error running examples:` line and no hint. -/
theorem auth_failure_ends_run (api : Remote) (rt : Runtime) (e : JsError) (t1 t2 t3 : String)
    (hs : e.status = some 401 ∨ e.status = some 403) :
    (api 0 Anthropic.example1_request = .error e →
      Anthropic.runAllExamples api rt [] =
        ⟨.ok (), Anthropic.opening ++ Anthropic.example1_started ++
          [Event.error ("Error running examples: " ++ e.message)]⟩ ∧
      callCount (Anthropic.runAllExamples api rt []).trace = 1) ∧
    (api 0 Anthropic.example1_request = .ok t1 →
      api 1 Anthropic.example2_request = .error e →
      Anthropic.runAllExamples api rt [] =
        ⟨.ok (), Anthropic.opening ++ Anthropic.example1_trace t1 ++ [Event.pause 1000] ++
          Anthropic.example2_started ++
          [Event.error ("Error running examples: " ++ e.message)]⟩ ∧
      callCount (Anthropic.runAllExamples api rt []).trace = 2) ∧
    (api 0 Anthropic.example1_request = .ok t1 →
      api 1 Anthropic.example2_request = .ok t2 →
      api 2 Anthropic.example3_request = .error e →
      Anthropic.runAllExamples api rt [] =
        ⟨.ok (), Anthropic.opening ++ Anthropic.example1_trace t1 ++ [Event.pause 1000] ++
          Anthropic.example2_trace t2 ++ [Event.pause 1000] ++ Anthropic.example3_started ++
          [Event.error ("Error running examples: " ++ e.message)]⟩ ∧
      callCount (Anthropic.runAllExamples api rt []).trace = 3) ∧
    (api 0 Anthropic.example1_request = .ok t1 →
      api 1 Anthropic.example2_request = .ok t2 →
      api 2 Anthropic.example3_request = .ok t3 →
      api 3 Anthropic.example4_request = .error e →
      Anthropic.runAllExamples api rt [] =
        ⟨.ok (), Anthropic.opening ++ Anthropic.example1_trace t1 ++ [Event.pause 1000] ++
          Anthropic.example2_trace t2 ++ [Event.pause 1000] ++ Anthropic.example3_trace t3 ++
          [Event.pause 1000] ++ Anthropic.example4_started ++
          [Event.error ("Error running examples: " ++ e.message)]⟩ ∧
      callCount (Anthropic.runAllExamples api rt []).trace = 4) ∧
    (api 0 OpenAI.example3_request = .error e →
      OpenAI.runAllExamples api rt [] =
        ⟨.ok (), OpenAI.opening ++ [Event.pause 1000] ++ OpenAI.example3_started ++
          [ Event.error ("Error running examples: " ++ e.message),
            if e.status = some 401 then
              Event.error "\n⚠️  Check your OpenAI API key in .env file"
            else
              Event.error ("\n⚠️  Full error: " ++ rt.inspect e) ]⟩ ∧
      callCount (OpenAI.runAllExamples api rt []).trace = 1) := by
  have h400 : e.status ≠ some 400 := by
    rcases hs with h | h <;> simp [h]
  have h429 : e.status ≠ some 429 := by
    rcases hs with h | h <;> simp [h]
  refine ⟨fun h1 => ?_, fun h1 h2 => ?_, fun h1 h2 h3 => ?_, fun h1 h2 h3 h4 => ?_, fun h => ?_⟩
  · rw [Anthropic.anthropic_run_fail1 api rt e h1, anthropic_caught_of_ne e h400]
    simp [Anthropic.opening, Anthropic.example1_started]
  · rw [Anthropic.anthropic_run_fail2 api rt t1 e h1 h2, anthropic_caught_of_ne e h400]
    simp [Anthropic.opening, Anthropic.example1_trace, Anthropic.example1_started,
      Anthropic.example2_started]
  · rw [Anthropic.anthropic_run_fail3 api rt t1 t2 e h1 h2 h3, anthropic_caught_of_ne e h400]
    simp [Anthropic.opening, Anthropic.example1_trace, Anthropic.example1_started,
      Anthropic.example2_trace, Anthropic.example2_started, Anthropic.example3_started]
  · rw [Anthropic.anthropic_run_fail4 api rt t1 t2 t3 e h1 h2 h3 h4,
      anthropic_caught_of_ne e h400]
    simp [Anthropic.opening, Anthropic.example1_trace, Anthropic.example1_started,
      Anthropic.example2_trace, Anthropic.example2_started, Anthropic.example3_trace,
      Anthropic.example3_started, Anthropic.example4_started]
  · rw [OpenAI.openai_run_fail api rt e h]
    by_cases h401 : e.status = some 401 <;>
      simp [OpenAI.caught, OpenAI.opening, OpenAI.example3_started, h401, h429]

/-- C2, amended, at a concrete input: the OpenAI runner whose call is rejected with status 401
prints the credential-check hint and makes one call. -/
theorem auth_failure_ends_run_witness :
    ((some 401 : Option Nat) = some 401 ∨ (some 401 : Option Nat) = some 403) ∧
    stderr (OpenAI.runAllExamples (rejecting ⟨"Incorrect API key provided", some 401⟩)
        (tableRuntime []) []).trace =
      ["Error running examples: Incorrect API key provided",
       "\n⚠️  Check your OpenAI API key in .env file"] ∧
    callCount (OpenAI.runAllExamples (rejecting ⟨"Incorrect API key provided", some 401⟩)
        (tableRuntime []) []).trace = 1 := by
  have h := (auth_failure_ends_run (rejecting ⟨"Incorrect API key provided", some 401⟩)
    (tableRuntime []) ⟨"Incorrect API key provided", some 401⟩ "" "" "" (Or.inl rfl)).2.2.2.2 rfl
  refine ⟨Or.inl rfl, ?_, h.2⟩
  rw [h.1]
  rfl

/-- C3, as stated, fails for the Anthropic runner: when its second call is rejected with status
429, standard error holds the `Error running examples:` line and nothing else, so no rate-limit
hint is printed (the run still stops after that call). -/
theorem rate_limit_hint_not_printed_anthropic :
    stderr (Anthropic.runAllExamples (failingAfter 1 "ok" ⟨"rate_limit_error", some 429⟩)
        (tableRuntime []) []).trace =
      ["Error running examples: rate_limit_error"] ∧
    callCount (Anthropic.runAllExamples (failingAfter 1 "ok" ⟨"rate_limit_error", some 429⟩)
        (tableRuntime []) []).trace = 2 := by
  rw [Anthropic.anthropic_run_fail2 _ _ "ok" ⟨"rate_limit_error", some 429⟩ rfl rfl]
  exact ⟨rfl, rfl⟩

/-- C3, amended: when an example call is rejected with status 429, the OpenAI runner prints the
rate-limit hint, not the authentication hint, and the Anthropic runner prints the
`Error running examples:` line only (it has no rate-limit hint, and prints no authentication
hint); in both runners the rejected call is the last call and the rest of the sequence is not
run. -/
theorem rate_limit_failure_ends_run (api : Remote) (rt : Runtime) (e : JsError)
    (t1 t2 t3 : String) (hs : e.status = some 429) :
    (api 0 OpenAI.example3_request = .error e →
      OpenAI.runAllExamples api rt [] =
        ⟨.ok (), OpenAI.opening ++ [Event.pause 1000] ++ OpenAI.example3_started ++
          [ Event.error ("Error running examples: " ++ e.message),
            Event.error "\n⚠️  Rate limit exceeded. Wait a moment and try again." ]⟩ ∧
      callCount (OpenAI.runAllExamples api rt []).trace = 1) ∧
    (api 0 Anthropic.example1_request = .error e →
      Anthropic.runAllExamples api rt [] =
        ⟨.ok (), Anthropic.opening ++ Anthropic.example1_started ++
          [Event.error ("Error running examples: " ++ e.message)]⟩ ∧
      callCount (Anthropic.runAllExamples api rt []).trace = 1) ∧
    (api 0 Anthropic.example1_request = .ok t1 →
      api 1 Anthropic.example2_request = .error e →
      Anthropic.runAllExamples api rt [] =
        ⟨.ok (), Anthropic.opening ++ Anthropic.example1_trace t1 ++ [Event.pause 1000] ++
          Anthropic.example2_started ++
          [Event.error ("Error running examples: " ++ e.message)]⟩ ∧
      callCount (Anthropic.runAllExamples api rt []).trace = 2) ∧
    (api 0 Anthropic.example1_request = .ok t1 →
      api 1 Anthropic.example2_request = .ok t2 →
      api 2 Anthropic.example3_request = .error e →
      Anthropic.runAllExamples api rt [] =
        ⟨.ok (), Anthropic.opening ++ Anthropic.example1_trace t1 ++ [Event.pause 1000] ++
          Anthropic.example2_trace t2 ++ [Event.pause 1000] ++ Anthropic.example3_started ++
          [Event.error ("Error running examples: " ++ e.message)]⟩ ∧
      callCount (Anthropic.runAllExamples api rt []).trace = 3) ∧
    (api 0 Anthropic.example1_request = .ok t1 →
      api 1 Anthropic.example2_request = .ok t2 →
      api 2 Anthropic.example3_request = .ok t3 →
      api 3 Anthropic.example4_request = .error e →
      Anthropic.runAllExamples api rt [] =
        ⟨.ok (), Anthropic.opening ++ Anthropic.example1_trace t1 ++ [Event.pause 1000] ++
          Anthropic.example2_trace t2 ++ [Event.pause 1000] ++ Anthropic.example3_trace t3 ++
          [Event.pause 1000] ++ Anthropic.example4_started ++
          [Event.error ("Error running examples: " ++ e.message)]⟩ ∧
      callCount (Anthropic.runAllExamples api rt []).trace = 4) := by
  have h400 : e.status ≠ some 400 := by simp [hs]
  refine ⟨fun h => ?_, fun h1 => ?_, fun h1 h2 => ?_, fun h1 h2 h3 => ?_,
    fun h1 h2 h3 h4 => ?_⟩
  · rw [OpenAI.openai_run_fail api rt e h]
    simp [OpenAI.caught, OpenAI.opening, OpenAI.example3_started, hs]
  · rw [Anthropic.anthropic_run_fail1 api rt e h1, anthropic_caught_of_ne e h400]
    simp [Anthropic.opening, Anthropic.example1_started]
  · rw [Anthropic.anthropic_run_fail2 api rt t1 e h1 h2, anthropic_caught_of_ne e h400]
    simp [Anthropic.opening, Anthropic.example1_trace, Anthropic.example1_started,
      Anthropic.example2_started]
  · rw [Anthropic.anthropic_run_fail3 api rt t1 t2 e h1 h2 h3, anthropic_caught_of_ne e h400]
    simp [Anthropic.opening, Anthropic.example1_trace, Anthropic.example1_started,
      Anthropic.example2_trace, Anthropic.example2_started, Anthropic.example3_started]
  · rw [Anthropic.anthropic_run_fail4 api rt t1 t2 t3 e h1 h2 h3 h4,
      anthropic_caught_of_ne e h400]
    simp [Anthropic.opening, Anthropic.example1_trace, Anthropic.example1_started,
      Anthropic.example2_trace, Anthropic.example2_started, Anthropic.example3_trace,
      Anthropic.example3_started, Anthropic.example4_started]

/-- C3, amended, at a concrete input: the OpenAI runner whose call is rejected with status 429
prints the rate-limit hint and makes one call. -/
theorem rate_limit_failure_ends_run_witness :
    (some 429 : Option Nat) = some 429 ∧
    stderr (OpenAI.runAllExamples (rejecting ⟨"Rate limit reached", some 429⟩)
        (tableRuntime []) []).trace =
      ["Error running examples: Rate limit reached",
       "\n⚠️  Rate limit exceeded. Wait a moment and try again."] ∧
    callCount (OpenAI.runAllExamples (rejecting ⟨"Rate limit reached", some 429⟩)
        (tableRuntime []) []).trace = 1 := by
  have h := (rate_limit_failure_ends_run (rejecting ⟨"Rate limit reached", some 429⟩)
    (tableRuntime []) ⟨"Rate limit reached", some 429⟩ "" "" "" rfl).1 rfl
  refine ⟨rfl, ?_, h.2⟩
  rw [h.1]
  rfl

/-- C6: every example function makes exactly one outbound call, whatever the provider answers,
and a failure aborts the rest of the run.  In the Anthropic runner, when the call of example
`k` (1 to 4) is rejected after the earlier ones succeeded, the run consists of the complete
examples before `k`, example `k` up to its call, and the output of the `catch` block: exactly
`k` calls are made, namely the requests of examples 1 to `k` once each, no later example
starts and the completion banner is not printed.  The same holds for the OpenAI runner and
the one example it invokes. -/
theorem failure_aborts_run (api : Remote) (rt : Runtime) (e : JsError) (t1 t2 t3 : String) :
    ((∀ tr, callCount (Anthropic.example1_rolePrompting api tr).trace = callCount tr + 1) ∧
     (∀ tr, callCount (Anthropic.example2_prefill api tr).trace = callCount tr + 1) ∧
     (∀ tr, callCount (Anthropic.example3_roleAndPrefill api tr).trace = callCount tr + 1) ∧
     (∀ tr, callCount (Anthropic.example4_allTogether api rt tr).trace = callCount tr + 1) ∧
     (∀ tr, callCount (OpenAI.example1_rolePrompting api tr).trace = callCount tr + 1) ∧
     (∀ tr, callCount (OpenAI.example2_fewShotLearning api tr).trace = callCount tr + 1) ∧
     (∀ tr, callCount (OpenAI.example3_roleAndFewShot api tr).trace = callCount tr + 1) ∧
     (∀ tr, callCount (OpenAI.example4_jsonObjectMode api rt tr).trace = callCount tr + 1) ∧
     (∀ tr, callCount (OpenAI.example5_structuredOutputs api rt tr).trace =
        callCount tr + 1)) ∧
    (api 0 Anthropic.example1_request = .error e →
      Anthropic.runAllExamples api rt [] =
        ⟨.ok (), Anthropic.opening ++ Anthropic.example1_started ++ Anthropic.caught e⟩ ∧
      requests (Anthropic.runAllExamples api rt []).trace = [Anthropic.example1_request] ∧
      callCount (Anthropic.runAllExamples api rt []).trace = 1) ∧
    (api 0 Anthropic.example1_request = .ok t1 →
      api 1 Anthropic.example2_request = .error e →
      Anthropic.runAllExamples api rt [] =
        ⟨.ok (), Anthropic.opening ++ Anthropic.example1_trace t1 ++ [Event.pause 1000] ++
          Anthropic.example2_started ++ Anthropic.caught e⟩ ∧
      requests (Anthropic.runAllExamples api rt []).trace =
        [Anthropic.example1_request, Anthropic.example2_request] ∧
      callCount (Anthropic.runAllExamples api rt []).trace = 2) ∧
    (api 0 Anthropic.example1_request = .ok t1 →
      api 1 Anthropic.example2_request = .ok t2 →
      api 2 Anthropic.example3_request = .error e →
      Anthropic.runAllExamples api rt [] =
        ⟨.ok (), Anthropic.opening ++ Anthropic.example1_trace t1 ++ [Event.pause 1000] ++
          Anthropic.example2_trace t2 ++ [Event.pause 1000] ++ Anthropic.example3_started ++
          Anthropic.caught e⟩ ∧
      requests (Anthropic.runAllExamples api rt []).trace =
        [Anthropic.example1_request, Anthropic.example2_request,
         Anthropic.example3_request] ∧
      callCount (Anthropic.runAllExamples api rt []).trace = 3) ∧
    (api 0 Anthropic.example1_request = .ok t1 →
      api 1 Anthropic.example2_request = .ok t2 →
      api 2 Anthropic.example3_request = .ok t3 →
      api 3 Anthropic.example4_request = .error e →
      Anthropic.runAllExamples api rt [] =
        ⟨.ok (), Anthropic.opening ++ Anthropic.example1_trace t1 ++ [Event.pause 1000] ++
          Anthropic.example2_trace t2 ++ [Event.pause 1000] ++ Anthropic.example3_trace t3 ++
          [Event.pause 1000] ++ Anthropic.example4_started ++ Anthropic.caught e⟩ ∧
      requests (Anthropic.runAllExamples api rt []).trace =
        [Anthropic.example1_request, Anthropic.example2_request,
         Anthropic.example3_request, Anthropic.example4_request] ∧
      callCount (Anthropic.runAllExamples api rt []).trace = 4) ∧
    (api 0 OpenAI.example3_request = .error e →
      OpenAI.runAllExamples api rt [] =
        ⟨.ok (), OpenAI.opening ++ [Event.pause 1000] ++ OpenAI.example3_started ++
          OpenAI.caught rt e⟩ ∧
      requests (OpenAI.runAllExamples api rt []).trace = [OpenAI.example3_request] ∧
      callCount (OpenAI.runAllExamples api rt []).trace = 1) := by
  refine ⟨⟨?_, ?_, ?_, ?_, ?_, ?_, ?_, ?_, ?_⟩, fun h1 => ?_, fun h1 h2 => ?_,
    fun h1 h2 h3 => ?_, fun h1 h2 h3 h4 => ?_, fun h => ?_⟩
  · intro tr
    simp [callCount_eq_length_requests, anthropic_example1_requests]
  · intro tr
    simp [callCount_eq_length_requests, anthropic_example2_requests]
  · intro tr
    simp [callCount_eq_length_requests, anthropic_example3_requests]
  · intro tr
    simp [callCount_eq_length_requests, anthropic_example4_requests]
  · intro tr
    simp [callCount_eq_length_requests, openai_example1_requests]
  · intro tr
    simp [callCount_eq_length_requests, openai_example2_requests]
  · intro tr
    simp [callCount_eq_length_requests, openai_example3_requests]
  · intro tr
    simp [callCount_eq_length_requests, openai_example4_requests]
  · intro tr
    simp [callCount_eq_length_requests, openai_example5_requests]
  · rw [Anthropic.anthropic_run_fail1 api rt e h1]
    simp only [requests_append, anthropic_requests_caught, callCount_append,
      anthropic_callCount_caught, List.append_nil, Nat.add_zero]
    simp [requests_append,
      Anthropic.opening, Anthropic.example1_started, requests]
  · rw [Anthropic.anthropic_run_fail2 api rt t1 e h1 h2]
    simp only [requests_append, anthropic_requests_caught, callCount_append,
      anthropic_callCount_caught, List.append_nil, Nat.add_zero]
    simp [requests_append,
      Anthropic.opening, Anthropic.example1_trace, Anthropic.example1_started,
      Anthropic.example2_started, requests]
  · rw [Anthropic.anthropic_run_fail3 api rt t1 t2 e h1 h2 h3]
    simp only [requests_append, anthropic_requests_caught, callCount_append,
      anthropic_callCount_caught, List.append_nil, Nat.add_zero]
    simp [requests_append,
      Anthropic.opening, Anthropic.example1_trace, Anthropic.example1_started,
      Anthropic.example2_trace, Anthropic.example2_started, Anthropic.example3_started,
      requests]
  · rw [Anthropic.anthropic_run_fail4 api rt t1 t2 t3 e h1 h2 h3 h4]
    simp only [requests_append, anthropic_requests_caught, callCount_append,
      anthropic_callCount_caught, List.append_nil, Nat.add_zero]
    simp [requests_append,
      Anthropic.opening, Anthropic.example1_trace, Anthropic.example1_started,
      Anthropic.example2_trace, Anthropic.example2_started, Anthropic.example3_trace,
      Anthropic.example3_started, Anthropic.example4_started, requests]
  · rw [OpenAI.openai_run_fail api rt e h]
    simp only [requests_append, openai_requests_caught, callCount_append,
      openai_callCount_caught, List.append_nil, Nat.add_zero]
    simp [requests_append,
      OpenAI.opening, OpenAI.example3_started, requests]

/-- C6 at a concrete input: the third call of the Anthropic runner is rejected with status 529
after two successful calls; three calls are made and the run ends with the error line. -/
theorem failure_aborts_run_witness :
    failingAfter 2 "ok" ⟨"Overloaded", some 529⟩ 2 Anthropic.example3_request =
      .error ⟨"Overloaded", some 529⟩ ∧
    requests (Anthropic.runAllExamples (failingAfter 2 "ok" ⟨"Overloaded", some 529⟩)
        (tableRuntime []) []).trace =
      [Anthropic.example1_request, Anthropic.example2_request, Anthropic.example3_request] ∧
    callCount (Anthropic.runAllExamples (failingAfter 2 "ok" ⟨"Overloaded", some 529⟩)
        (tableRuntime []) []).trace = 3 :=
  ⟨rfl, ((failure_aborts_run (failingAfter 2 "ok" ⟨"Overloaded", some 529⟩) (tableRuntime [])
    ⟨"Overloaded", some 529⟩ "ok" "ok" "ok").2.2.2.1 rfl rfl rfl).2⟩

/-! ## The basic scripts (C4) -/

/-- C4 at the failing input (credential `sk-ant-secret`, reply `About 10 m3 of concrete.`): both
basic scripts make one call whose only turn is the user turn with the fixed question and hand
nothing to `JSON.parse`; the standard output of `initial_llm_call_openai.js` is the reply alone,
but the standard output of `initial_llm_call_anthropic.js` starts with a line that shows the
credential (and with `undefined` in its place when the variable is not set). -/
theorem initial_anthropic_prints_credential :
    stdout (InitialAnthropic.script (some "sk-ant-secret")
        (answering "About 10 m3 of concrete.") []).trace =
      ["process.env.ANTHROPIC_API_KEY: sk-ant-secret", "About 10 m3 of concrete."] ∧
    stdout (InitialAnthropic.script none (answering "About 10 m3 of concrete.") []).trace =
      ["process.env.ANTHROPIC_API_KEY: undefined", "About 10 m3 of concrete."] ∧
    stdout (InitialOpenAI.script (some "sk-secret")
        (answering "About 10 m3 of concrete.") []).trace =
      ["About 10 m3 of concrete."] ∧
    requests (InitialAnthropic.script (some "sk-ant-secret")
        (answering "About 10 m3 of concrete.") []).trace =
      [InitialAnthropic.request "Estimate materials for a 100m² concrete slab, 10cm thick"] ∧
    (InitialAnthropic.request
        "Estimate materials for a 100m² concrete slab, 10cm thick").messages =
      [⟨.user, "Estimate materials for a 100m² concrete slab, 10cm thick"⟩] ∧
    requests (InitialOpenAI.script (some "sk-secret")
        (answering "About 10 m3 of concrete.") []).trace =
      [InitialOpenAI.request "Estimate materials for a 100m² concrete slab, 10cm thick"] ∧
    (InitialOpenAI.request
        "Estimate materials for a 100m² concrete slab, 10cm thick").messages =
      [⟨.user, "Estimate materials for a 100m² concrete slab, 10cm thick"⟩] ∧
    parsed (InitialAnthropic.script (some "sk-ant-secret")
        (answering "About 10 m3 of concrete.") []).trace = [] ∧
    parsed (InitialOpenAI.script (some "sk-secret")
        (answering "About 10 m3 of concrete.") []).trace = [] :=
  ⟨rfl, rfl, rfl, rfl, rfl, rfl, rfl, rfl, rfl⟩

/-! ## Priming (C5) -/

/-- C5: in `example2_prefill` and `example3_roleAndPrefill`, for every continuation `t` the call
returns, the last line printed is the priming text followed by `t`, and that priming text is
the content of the final (assistant) turn of the request that was sent; nothing else follows
the call but the two, respectively three, fixed lines before it. -/
theorem prefill_is_prepended (api : Remote) (tr : List Event) (t : String) :
    (Anthropic.example2_request.messages.getLast? =
        some ⟨.assistant, "Based on structural engineering principles, I recommend"⟩ ∧
      (api (callCount tr) Anthropic.example2_request = .ok t →
        Anthropic.example2_prefill api tr =
          ⟨.ok (), tr ++ Anthropic.example2_started ++
            [ Event.log
                "Prefill used: \"Based on structural engineering principles, I recommend\"",
              Event.log "\nResponse (continues from prefill):",
              Event.log ("Based on structural engineering principles, I recommend" ++ t) ]⟩)) ∧
    (Anthropic.example3_request.messages.getLast? =
        some ⟨.assistant, "SAFETY VIOLATION REPORT\n\nCritical Issues Identified:"⟩ ∧
      (api (callCount tr) Anthropic.example3_request = .ok t →
        Anthropic.example3_roleAndPrefill api tr =
          ⟨.ok (), tr ++ Anthropic.example3_started ++
            [ Event.log "System Role: Safety inspector with Central America expertise",
              Event.log
                "Prefill: \"SAFETY VIOLATION REPORT\\n\\nCritical Issues Identified:\"",
              Event.log "\nResponse:",
              Event.log
                ("SAFETY VIOLATION REPORT\n\nCritical Issues Identified:" ++ t) ]⟩)) := by
  refine ⟨⟨rfl, fun h => ?_⟩, ⟨rfl, fun h => ?_⟩⟩
  · rw [Anthropic.anthropic_example2_ok api tr t h]
    simp [Anthropic.example2_trace]
  · rw [Anthropic.anthropic_example3_ok api tr t h]
    simp [Anthropic.example3_trace]

/-- C5 at a concrete input: the continuation ` fiber for thin slabs.` is printed after the
priming text of `example2_prefill`. -/
theorem prefill_is_prepended_witness :
    answering " fiber for thin slabs." (callCount []) Anthropic.example2_request =
      .ok " fiber for thin slabs." ∧
    (stdout (Anthropic.example2_prefill (answering " fiber for thin slabs.") []).trace).getLast? =
      some "Based on structural engineering principles, I recommend fiber for thin slabs." := by
  refine ⟨rfl, ?_⟩
  rw [((prefill_is_prepended (answering " fiber for thin slabs.") []
    " fiber for thin slabs.").1).2 rfl]
  rfl

/-! ## The turn-sequence invariant (C7) -/

/-- C7: every request sent by a function of the five scripts, whatever the provider answers and
whatever question or description is passed, satisfies the turn-sequence invariant: ignoring a
leading system turn the turns alternate user, assistant, user, ... starting with a user turn.
The Anthropic requests with priming content (`example2_prefill`, `example3_roleAndPrefill`,
`example4_allTogether`) end on the assistant turn; every other request, all OpenAI requests
among them, ends on a user turn. -/
theorem turn_sequence_invariant (api : Remote) (rt : Runtime) (question description : String) :
    (∀ r ∈ requests (InitialAnthropic.askClaude api question []).trace,
      turnInvariant .user r) ∧
    (∀ r ∈ requests (InitialOpenAI.askGPT api question []).trace, turnInvariant .user r) ∧
    (∀ r ∈ requests (Estimator.estimateProject api description []).trace,
      turnInvariant .user r) ∧
    (∀ r ∈ requests (Anthropic.example1_rolePrompting api []).trace, turnInvariant .user r) ∧
    (∀ r ∈ requests (Anthropic.example2_prefill api []).trace, turnInvariant .assistant r) ∧
    (∀ r ∈ requests (Anthropic.example3_roleAndPrefill api []).trace,
      turnInvariant .assistant r) ∧
    (∀ r ∈ requests (Anthropic.example4_allTogether api rt []).trace,
      turnInvariant .assistant r) ∧
    (∀ r ∈ requests (OpenAI.example1_rolePrompting api []).trace, turnInvariant .user r) ∧
    (∀ r ∈ requests (OpenAI.example2_fewShotLearning api []).trace, turnInvariant .user r) ∧
    (∀ r ∈ requests (OpenAI.example3_roleAndFewShot api []).trace, turnInvariant .user r) ∧
    (∀ r ∈ requests (OpenAI.example4_jsonObjectMode api rt []).trace,
      turnInvariant .user r) ∧
    (∀ r ∈ requests (OpenAI.example5_structuredOutputs api rt []).trace,
      turnInvariant .user r) := by
  refine ⟨?_, ?_, ?_, ?_, ?_, ?_, ?_, ?_, ?_, ?_, ?_, ?_⟩
  · intro r hr
    rw [askClaude_requests] at hr
    obtain rfl : r = InitialAnthropic.request question := by simpa [requests] using hr
    exact ⟨rfl, rfl⟩
  · intro r hr
    rw [askGPT_requests] at hr
    obtain rfl : r = InitialOpenAI.request question := by simpa [requests] using hr
    exact ⟨rfl, rfl⟩
  · intro r hr
    rw [estimateProject_requests] at hr
    obtain rfl : r = Estimator.request description := by simpa [requests] using hr
    exact ⟨rfl, rfl⟩
  · intro r hr
    rw [anthropic_example1_requests] at hr
    obtain rfl : r = Anthropic.example1_request := by simpa [requests] using hr
    exact ⟨rfl, rfl⟩
  · intro r hr
    rw [anthropic_example2_requests] at hr
    obtain rfl : r = Anthropic.example2_request := by simpa [requests] using hr
    exact ⟨rfl, rfl⟩
  · intro r hr
    rw [anthropic_example3_requests] at hr
    obtain rfl : r = Anthropic.example3_request := by simpa [requests] using hr
    exact ⟨rfl, rfl⟩
  · intro r hr
    rw [anthropic_example4_requests] at hr
    obtain rfl : r = Anthropic.example4_request := by simpa [requests] using hr
    exact ⟨rfl, rfl⟩
  · intro r hr
    rw [openai_example1_requests] at hr
    obtain rfl : r = OpenAI.example1_request := by simpa [requests] using hr
    exact ⟨rfl, rfl⟩
  · intro r hr
    rw [openai_example2_requests] at hr
    obtain rfl : r = OpenAI.example2_request := by simpa [requests] using hr
    exact ⟨rfl, rfl⟩
  · intro r hr
    rw [openai_example3_requests] at hr
    obtain rfl : r = OpenAI.example3_request := by simpa [requests] using hr
    exact ⟨rfl, rfl⟩
  · intro r hr
    rw [openai_example4_requests] at hr
    obtain rfl : r = OpenAI.example4_request := by simpa [requests] using hr
    exact ⟨rfl, rfl⟩
  · intro r hr
    rw [openai_example5_requests] at hr
    obtain rfl : r = OpenAI.example5_request := by simpa [requests] using hr
    exact ⟨rfl, rfl⟩

/-! ## Structured outputs (C8, C10) -/

/-- C8: when the call of `example5_structuredOutputs` succeeds with a reply that parses to a
value satisfying the object keywords of `riskAssessmentSchema` (what the schema-constrained mode
of the provider guarantees), the function prints that value, and its top-level member names are
exactly the names of the `required` list of the schema: `projectName`, `riskLevel`, `risks`,
`estimatedDelay`, `budgetImpact`, `recommendations`.  The request carries that schema. -/
theorem structured_output_keys (api : Remote) (rt : Runtime) (tr : List Event) (t : String)
    (v : Json)
    (h : api (callCount tr) OpenAI.example5_request = .ok t)
    (hp : rt.parse t = .ok v)
    (hc : OpenAI.riskAssessmentSchema.admitsKeys v) :
    OpenAI.example5_structuredOutputs api rt tr =
      ⟨.ok (), tr ++ OpenAI.example5_started ++
        [Event.parse t, Event.log (rt.stringify v 2)]⟩ ∧
    (∀ name, name ∈ v.keys ↔ name ∈ OpenAI.riskAssessmentSchema.requiredNames) ∧
    OpenAI.riskAssessmentSchema.requiredNames =
      ["projectName", "riskLevel", "risks", "estimatedDelay", "budgetImpact",
       "recommendations"] ∧
    OpenAI.example5_request.response_format =
      some (.json_schema "risk_assessment" true OpenAI.riskAssessmentSchema) := by
  refine ⟨?_, ?_, rfl, rfl⟩
  · rw [OpenAI.openai_example5_ok api rt tr t h]
    simp [jsonStepEvents, hp]
  · cases v with
    | obj members =>
      obtain ⟨hreq, hadd⟩ := hc
      intro name
      constructor
      · intro hk
        exact hadd rfl name hk
      · intro hk
        exact hreq name hk
    | null => exact hc.elim
    | bool b => exact hc.elim
    | num m x => exact hc.elim
    | str x => exact hc.elim
    | arr xs => exact hc.elim

/-- C8 at a concrete input: a reply with the six members in another order. -/
theorem structured_output_keys_witness :
    OpenAI.riskAssessmentSchema.admitsKeys sampleAssessment ∧
    (∀ name, name ∈ sampleAssessment.keys ↔
      name ∈ ["projectName", "riskLevel", "risks", "estimatedDelay", "budgetImpact",
        "recommendations"]) ∧
    (OpenAI.example5_structuredOutputs (answering sampleAssessmentText)
        (tableRuntime [(sampleAssessmentText, sampleAssessment)]) []).result = .ok () := by
  have hc : OpenAI.riskAssessmentSchema.admitsKeys sampleAssessment := by
    simp [Schema.admitsKeys, OpenAI.riskAssessmentSchema, sampleAssessment]
  have h := structured_output_keys (answering sampleAssessmentText)
    (tableRuntime [(sampleAssessmentText, sampleAssessment)]) [] sampleAssessmentText
    sampleAssessment rfl (by simp [tableRuntime, List.lookup]) hc
  refine ⟨hc, h.2.1, ?_⟩
  rw [h.1]

/-- C10: `riskAssessmentSchema` is closed at every object level.  At the top level and in the
item type of `risks` (its only object levels) the `required` list is the list of the declared
property names, without duplicates, and `additionalProperties` is `false`; the request of
`example5_structuredOutputs` carries the schema with `strict: true`. -/
theorem risk_schema_closed :
    OpenAI.riskAssessmentSchema.closedEverywhere = true ∧
    OpenAI.riskAssessmentSchema.closedHere ∧
    ((OpenAI.riskAssessmentSchema.property "risks").bind Schema.itemType =
      some OpenAI.riskItemSchema) ∧
    OpenAI.riskItemSchema.closedHere ∧
    OpenAI.riskAssessmentSchema.propertyNames =
      ["projectName", "riskLevel", "risks", "estimatedDelay", "budgetImpact",
       "recommendations"] ∧
    OpenAI.riskItemSchema.propertyNames =
      ["category", "description", "severity", "mitigation"] ∧
    OpenAI.example5_request.response_format =
      some (.json_schema "risk_assessment" true OpenAI.riskAssessmentSchema) := by
  refine ⟨by decide, ⟨rfl, by decide, rfl⟩, rfl, ⟨rfl, by decide, rfl⟩, rfl, rfl, rfl⟩

/-! ## The successful run of the Anthropic runner (C9) -/

/-- C9: when the four calls succeed, the run of the Anthropic `runAllExamples` is the two title
lines, then the complete runs of `example1_rolePrompting`, `example2_prefill`,
`example3_roleAndPrefill` and `example4_allTogether` in this order, separated by one pause of
1000 ms each, then the completion banner and the takeaways.  There are three pauses, each of
1000 ms whatever the replies are, none before the first example or after the last. -/
theorem anthropic_run_sequential (api : Remote) (rt : Runtime) (t1 t2 t3 t4 : String)
    (h1 : api 0 Anthropic.example1_request = .ok t1)
    (h2 : api 1 Anthropic.example2_request = .ok t2)
    (h3 : api 2 Anthropic.example3_request = .ok t3)
    (h4 : api 3 Anthropic.example4_request = .ok t4) :
    Anthropic.runAllExamples api rt [] =
      ⟨.ok (), Anthropic.opening ++
        Anthropic.example1_trace t1 ++ [Event.pause 1000] ++
        Anthropic.example2_trace t2 ++ [Event.pause 1000] ++
        Anthropic.example3_trace t3 ++ [Event.pause 1000] ++
        Anthropic.example4_trace rt t4 ++
        Anthropic.closing⟩ ∧
    pauses (Anthropic.runAllExamples api rt []).trace = [1000, 1000, 1000] ∧
    requests (Anthropic.runAllExamples api rt []).trace =
      [Anthropic.example1_request, Anthropic.example2_request, Anthropic.example3_request,
       Anthropic.example4_request] ∧
    Anthropic.closing.take 3 =
      [ Event.log ("\n" ++ strRepeat "=" 80),
        Event.log "✅ ALL EXAMPLES COMPLETED",
        Event.log (strRepeat "=" 80) ] := by
  rw [Anthropic.anthropic_run_ok api rt t1 t2 t3 t4 h1 h2 h3 h4]
  refine ⟨rfl, ?_, ?_, rfl⟩
  · simp only [Anthropic.example4_trace, pauses_append, pauses_jsonStepEvents]
    rfl
  · simp only [Anthropic.example4_trace, requests_append, requests_jsonStepEvents]
    rfl

/-- C9 at a concrete input: every call is answered with `ok`. -/
theorem anthropic_run_sequential_witness :
    answering "ok" 0 Anthropic.example1_request = .ok "ok" ∧
    pauses (Anthropic.runAllExamples (answering "ok") (tableRuntime []) []).trace =
      [1000, 1000, 1000] ∧
    (Anthropic.runAllExamples (answering "ok") (tableRuntime []) []).result = .ok () := by
  have h := anthropic_run_sequential (answering "ok") (tableRuntime []) "ok" "ok" "ok" "ok"
    rfl rfl rfl rfl
  refine ⟨rfl, h.2.1, ?_⟩
  rw [h.1]

/-! ## The OpenAI runner (C11) -/

theorem openai_pauses_caught (rt : Runtime) (e : JsError) : pauses (OpenAI.caught rt e) = [] := by
  by_cases h1 : e.status = some 401
  · simp [OpenAI.caught, h1, pauses]
  · by_cases h2 : e.status = some 429 <;> simp [OpenAI.caught, h1, h2, pauses]

theorem openai_parsed_caught (rt : Runtime) (e : JsError) : parsed (OpenAI.caught rt e) = [] := by
  by_cases h1 : e.status = some 401
  · simp [OpenAI.caught, h1, parsed]
  · by_cases h2 : e.status = some 429 <;> simp [OpenAI.caught, h1, h2, parsed]

/-- C11: every run of the OpenAI `runAllExamples`, whatever the provider answers, takes one
pause of 1000 ms and makes one outbound call, the request of `example3_roleAndFewShot`; the
requests of `example1_rolePrompting`, `example2_fewShotLearning`, `example4_jsonObjectMode`
and `example5_structuredOutputs` are never sent, so the one request sent has no
`response_format` directive, and nothing is handed to `JSON.parse`.  When the call succeeds
the run is the title lines, the pause, the complete run of example 3 and then the
`ALL EXAMPLES COMPLETED` banner with the takeaways; when it fails the run ends with the output
of the `catch` block. -/
theorem openai_run_single_call (api : Remote) (rt : Runtime) :
    requests (OpenAI.runAllExamples api rt []).trace = [OpenAI.example3_request] ∧
    callCount (OpenAI.runAllExamples api rt []).trace = 1 ∧
    pauses (OpenAI.runAllExamples api rt []).trace = [1000] ∧
    parsed (OpenAI.runAllExamples api rt []).trace = [] ∧
    (∀ r ∈ requests (OpenAI.runAllExamples api rt []).trace,
      r.response_format = none ∧
      r.messages ≠ OpenAI.example1_request.messages ∧
      r.messages ≠ OpenAI.example2_request.messages ∧
      r.messages ≠ OpenAI.example4_request.messages ∧
      r.messages ≠ OpenAI.example5_request.messages) ∧
    (∀ t, api 0 OpenAI.example3_request = .ok t →
      OpenAI.runAllExamples api rt [] =
        ⟨.ok (), OpenAI.opening ++ [Event.pause 1000] ++ OpenAI.example3_trace t ++
          OpenAI.closing⟩) ∧
    (∀ e, api 0 OpenAI.example3_request = .error e →
      OpenAI.runAllExamples api rt [] =
        ⟨.ok (), OpenAI.opening ++ [Event.pause 1000] ++ OpenAI.example3_started ++
          OpenAI.caught rt e⟩) ∧
    OpenAI.closing.take 3 =
      [ Event.log ("\n" ++ strRepeat "=" 80),
        Event.log "✅ ALL EXAMPLES COMPLETED",
        Event.log (strRepeat "=" 80) ] := by
  have hreq : requests (OpenAI.runAllExamples api rt []).trace = [OpenAI.example3_request] := by
    rcases h : api 0 OpenAI.example3_request with e | t
    · rw [OpenAI.openai_run_fail api rt e h]
      simp only [requests_append, openai_requests_caught, List.append_nil]
      rfl
    · rw [OpenAI.openai_run_ok api rt t h]
      rfl
  refine ⟨hreq, ?_, ?_, ?_, ?_, fun t h => OpenAI.openai_run_ok api rt t h,
    fun e h => OpenAI.openai_run_fail api rt e h, rfl⟩
  · rw [callCount_eq_length_requests, hreq]
    rfl
  · rcases h : api 0 OpenAI.example3_request with e | t
    · rw [OpenAI.openai_run_fail api rt e h]
      simp only [pauses_append, openai_pauses_caught, List.append_nil]
      rfl
    · rw [OpenAI.openai_run_ok api rt t h]
      rfl
  · rcases h : api 0 OpenAI.example3_request with e | t
    · rw [OpenAI.openai_run_fail api rt e h]
      simp only [parsed_append, openai_parsed_caught, List.append_nil]
      rfl
    · rw [OpenAI.openai_run_ok api rt t h]
      rfl
  · intro r hr
    rw [hreq] at hr
    obtain rfl : r = OpenAI.example3_request := by simpa using hr
    refine ⟨rfl, ?_, ?_, ?_, ?_⟩ <;>
    · intro hm
      have hl := congrArg List.length hm
      simp [OpenAI.example3_request, OpenAI.example1_request, OpenAI.example2_request,
        OpenAI.example4_request, OpenAI.example5_request] at hl

/-- C11 at a concrete input: the call is answered with `ok`; the run returns normally and the
banner block follows the complete run of example 3. -/
theorem openai_run_single_call_witness :
    answering "ok" 0 OpenAI.example3_request = .ok "ok" ∧
    OpenAI.runAllExamples (answering "ok") (tableRuntime []) [] =
      ⟨.ok (), OpenAI.opening ++ [Event.pause 1000] ++ OpenAI.example3_trace "ok" ++
        OpenAI.closing⟩ :=
  ⟨rfl, (openai_run_single_call (answering "ok") (tableRuntime [])).2.2.2.2.2.1 "ok" rfl⟩

/-! ## The estimator script (C12) -/

/-- C12: for every description, `estimateProject` sends exactly one request, whose turns are
the system turn `SYSTEM_PROMPT` followed by one user turn carrying the description unchanged;
when the call returns the text `t` it prints `t` once and returns nothing.  So the run of
`estimator.js` with a successful reply is the call, the line `t`, and the line `undefined`
printed for `result`. -/
theorem estimate_project_prints_once (api : Remote) (description t : String)
    (tr : List Event) :
    (Estimator.request description).messages =
      [⟨.system, Estimator.SYSTEM_PROMPT⟩, ⟨.user, description⟩] ∧
    requests (Estimator.estimateProject api description tr).trace =
      requests tr ++ [Estimator.request description] ∧
    (api (callCount tr) (Estimator.request description) = .ok t →
      Estimator.estimateProject api description tr =
        ⟨.ok (), tr ++ [Event.call (Estimator.request description), Event.log t]⟩) ∧
    (api 0 (Estimator.request "Build a 15m² wooden deck, 2m above ground, with railing") =
        .ok t →
      Estimator.script api [] =
        ⟨.ok (),
          [ Event.call
              (Estimator.request "Build a 15m² wooden deck, 2m above ground, with railing"),
            Event.log t,
            Event.log "undefined" ]⟩) := by
  refine ⟨rfl, estimateProject_requests api description tr, fun h => ?_, fun h => ?_⟩
  · unfold Estimator.estimateProject
    rw [create_bind_ok _ _ _ _ t h]
    simp
  · unfold Estimator.script Estimator.estimateProject
    simp only [prog_bind_assoc]
    rw [create_bind_ok _ _ _ _ t (by simpa using h)]
    simp [Estimator.showResult]

/-- C12 at a concrete input: the reply `Total: $1,200` is printed once, followed by the line
`undefined`. -/
theorem estimate_project_prints_once_witness :
    answering "Total: $1,200" 0
        (Estimator.request "Build a 15m² wooden deck, 2m above ground, with railing") =
      .ok "Total: $1,200" ∧
    stdout (Estimator.script (answering "Total: $1,200") []).trace =
      ["Total: $1,200", "undefined"] := by
  refine ⟨rfl, ?_⟩
  rw [(estimate_project_prints_once (answering "Total: $1,200") "" "Total: $1,200" []).2.2.2 rfl]
  rfl

end PromptScripts
